import Mathlib

/-!
# Verification of the abstract-provider reconciliation behaviour

Shallow embedding of the `abstract-provider` Terraform provider (Go) and
proofs about its lifecycle operations.  Each backend SDK call made by the
provider is recorded in an explicit call trace; the responses of the backend
are supplied through an environment structure, so every lifecycle method
becomes a pure function from (plan/state, environment) to an outcome
consisting of diagnostics, the resulting record and the list of calls made.

Conventions
* Go strings are modelled as Lean `String`; `strings.ToLower` and the byte
  slicing `s[:24]` are modelled on the character list (`String.data`), which
  coincides with Go's byte-level behaviour on the ASCII names the provider
  manipulates.
* A Go SDK call's result is an `Except String α`: `.error e` models
  `err != nil` with message `e`.
* `resp.Diagnostics.AddError(a, b)` is modelled by appending `⟨a, b⟩` to the
  `diags` list; `resp.State.RemoveResource` by a `none` state in a read
  outcome.
-/

namespace AbstractProvider

/-! ## Naming / normalization helpers (bucket.go 134-138, part_005 107-121) -/

/-- Models Go `strings.ToLower` on the ASCII strings the provider uses:
every character in `A`..`Z` is shifted to its lower-case form, all other
characters pass through. -/
def goToLower (s : String) : String := String.mk (s.data.map Char.toLower)

/-- Models the Go fragment `if len(s) > 24 { s = s[:24] }` used for Azure
storage-account names (bucket.go 136-138, function.go 150-152).  Go slices
bytes; on the ASCII account names involved this is character truncation. -/
def truncate24 (s : String) : String :=
  if s.data.length > 24 then String.mk (s.data.take 24) else s

/-- Azure storage-account name normalization from `BucketResource.Create`
(bucket.go 134-138): `acctName = strings.ToLower(acctName)` followed by the
24-byte truncation. -/
def storageAcctName (name : String) : String := truncate24 (goToLower name)

/-- Generic-size-to-concrete mapping from `InstanceResource.Create`, aws
branch (part_005 111-121): `switch strings.ToLower(size)` mapping
small/medium/large to t3 instance types, any other value passing through. -/
def awsSizeMap (size : String) : String :=
  if goToLower size = "small" then "t3.small"
  else if goToLower size = "medium" then "t3.medium"
  else if goToLower size = "large" then "t3.large"
  else size

/-- Generic-size-to-concrete mapping from `InstanceResource.Create`, azure
branch (part_005 262-272). -/
def azureSizeMap (size : String) : String :=
  if goToLower size = "small" then "Standard_B1s"
  else if goToLower size = "medium" then "Standard_B2s"
  else if goToLower size = "large" then "Standard_B4ms"
  else size

/-- Generic-size-to-concrete mapping from `InstanceResource.Create`, gcp
branch (part_005 340-350). -/
def gcpSizeMap (size : String) : String :=
  if goToLower size = "small" then "e2-small"
  else if goToLower size = "medium" then "e2-medium"
  else if goToLower size = "large" then "e2-standard-4"
  else size

theorem char_toNat_ofNat {n : Nat} (h : n < 55296) : (Char.ofNat n).toNat = n := by
  have hv : n.isValidChar := Or.inl h
  rw [Char.ofNat, dif_pos hv]
  simp [Char.ofNatAux, Char.toNat, UInt32.ofNat', BitVec.toNat_ofNatLt]
  rfl

theorem char_toLower_idem (c : Char) : c.toLower.toLower = c.toLower := by
  unfold Char.toLower
  by_cases h : c.toNat ≥ 65 ∧ c.toNat ≤ 90
  · rw [if_pos h]
    have h2 : (Char.ofNat (c.toNat + 32)).toNat = c.toNat + 32 :=
      char_toNat_ofNat (by omega)
    rw [if_neg (by omega)]
  · rw [if_neg h, if_neg h]

theorem goToLower_idem (s : String) : goToLower (goToLower s) = goToLower s := by
  unfold goToLower
  rw [List.map_map]
  have hcomp : Char.toLower ∘ Char.toLower = Char.toLower := funext char_toLower_idem
  rw [hcomp]

theorem truncate24_idem (s : String) : truncate24 (truncate24 s) = truncate24 s := by
  unfold truncate24
  by_cases h : s.data.length > 24
  · rw [if_pos h]
    have hlen : (String.mk (s.data.take 24)).data.length = 24 := by
      show (s.data.take 24).length = 24
      rw [List.length_take]
      omega
    rw [if_neg (by omega)]
  · rw [if_neg h, if_neg h]

theorem goToLower_truncate24 (s : String) :
    goToLower (truncate24 s) = truncate24 (goToLower s) := by
  unfold goToLower truncate24
  by_cases h : s.data.length > 24
  · rw [if_pos h]
    simp only [String.data]
    rw [if_pos (by simpa using h)]
    simp [List.map_take]
  · rw [if_neg h]
    rw [if_neg (by simpa using h)]

theorem storageAcctName_idem (s : String) :
    storageAcctName (storageAcctName s) = storageAcctName s := by
  unfold storageAcctName
  rw [goToLower_truncate24, goToLower_idem, truncate24_idem]

theorem awsSizeMap_small {s : String} (h : goToLower s = "small") :
    awsSizeMap s = "t3.small" := by
  unfold awsSizeMap; rw [h]; simp

theorem awsSizeMap_medium {s : String} (h : goToLower s = "medium") :
    awsSizeMap s = "t3.medium" := by
  unfold awsSizeMap; rw [h]; simp

theorem awsSizeMap_large {s : String} (h : goToLower s = "large") :
    awsSizeMap s = "t3.large" := by
  unfold awsSizeMap; rw [h]; simp

theorem awsSizeMap_passthrough {s : String} (h1 : goToLower s ≠ "small")
    (h2 : goToLower s ≠ "medium") (h3 : goToLower s ≠ "large") :
    awsSizeMap s = s := by
  unfold awsSizeMap; rw [if_neg h1, if_neg h2, if_neg h3]

theorem awsSizeMap_idem (s : String) : awsSizeMap (awsSizeMap s) = awsSizeMap s := by
  by_cases h1 : goToLower s = "small"
  · rw [awsSizeMap_small h1]; decide
  · by_cases h2 : goToLower s = "medium"
    · rw [awsSizeMap_medium h2]; decide
    · by_cases h3 : goToLower s = "large"
      · rw [awsSizeMap_large h3]; decide
      · rw [awsSizeMap_passthrough h1 h2 h3]
        exact awsSizeMap_passthrough h1 h2 h3

theorem azureSizeMap_small {s : String} (h : goToLower s = "small") :
    azureSizeMap s = "Standard_B1s" := by
  unfold azureSizeMap; rw [h]; simp

theorem azureSizeMap_medium {s : String} (h : goToLower s = "medium") :
    azureSizeMap s = "Standard_B2s" := by
  unfold azureSizeMap; rw [h]; simp

theorem azureSizeMap_large {s : String} (h : goToLower s = "large") :
    azureSizeMap s = "Standard_B4ms" := by
  unfold azureSizeMap; rw [h]; simp

theorem azureSizeMap_passthrough {s : String} (h1 : goToLower s ≠ "small")
    (h2 : goToLower s ≠ "medium") (h3 : goToLower s ≠ "large") :
    azureSizeMap s = s := by
  unfold azureSizeMap; rw [if_neg h1, if_neg h2, if_neg h3]

theorem azureSizeMap_idem (s : String) : azureSizeMap (azureSizeMap s) = azureSizeMap s := by
  by_cases h1 : goToLower s = "small"
  · rw [azureSizeMap_small h1]; decide
  · by_cases h2 : goToLower s = "medium"
    · rw [azureSizeMap_medium h2]; decide
    · by_cases h3 : goToLower s = "large"
      · rw [azureSizeMap_large h3]; decide
      · rw [azureSizeMap_passthrough h1 h2 h3]
        exact azureSizeMap_passthrough h1 h2 h3

theorem gcpSizeMap_small {s : String} (h : goToLower s = "small") :
    gcpSizeMap s = "e2-small" := by
  unfold gcpSizeMap; rw [h]; simp

theorem gcpSizeMap_medium {s : String} (h : goToLower s = "medium") :
    gcpSizeMap s = "e2-medium" := by
  unfold gcpSizeMap; rw [h]; simp

theorem gcpSizeMap_large {s : String} (h : goToLower s = "large") :
    gcpSizeMap s = "e2-standard-4" := by
  unfold gcpSizeMap; rw [h]; simp

theorem gcpSizeMap_passthrough {s : String} (h1 : goToLower s ≠ "small")
    (h2 : goToLower s ≠ "medium") (h3 : goToLower s ≠ "large") :
    gcpSizeMap s = s := by
  unfold gcpSizeMap; rw [if_neg h1, if_neg h2, if_neg h3]

theorem gcpSizeMap_idem (s : String) : gcpSizeMap (gcpSizeMap s) = gcpSizeMap s := by
  by_cases h1 : goToLower s = "small"
  · rw [gcpSizeMap_small h1]; decide
  · by_cases h2 : goToLower s = "medium"
    · rw [gcpSizeMap_medium h2]; decide
    · by_cases h3 : goToLower s = "large"
      · rw [gcpSizeMap_large h3]; decide
      · rw [gcpSizeMap_passthrough h1 h2 h3]
        exact gcpSizeMap_passthrough h1 h2 h3

/-! ## Diagnostics, adapter calls and outcome types -/

/-- One `resp.Diagnostics.AddError(summary, detail)` entry. -/
structure Diag where
  summary : String
  detail : String
deriving DecidableEq, Repr

/-- One backend SDK call made by a lifecycle method, with the arguments that
identify its target.  Constructors follow the SDK methods invoked in the
source. -/
inductive ACall where
  -- AWS EC2 (network.go / part_005 instance)
  | createVpc (cidr : String)
  | createTags (resourceId name : String)
  | describeAvailabilityZones
  | createSubnetAWS (vpcId cidr zone : String)
  | createInternetGateway
  | attachInternetGateway (vpcId gatewayId : String)
  | describeVpcs (vpcId : String)
  | runInstances (imageId instanceType : String) (publicIP : Bool)
  | describeInstances (instanceId : String)
  | terminateInstances (instanceId : String)
  -- AWS S3 (bucket.go)
  | createBucket (name region : String)
  | putBucketVersioning (name : String) (enabled : Bool)
  | headBucket (name : String)
  | deleteBucket (name : String)
  -- GCP (part_005 instance, bucket.go, cluster.go)
  | gcpInstancesInsert (project zone name machineType : String)
  | gcpInstancesGet (project zone name : String)
  | gcpInstancesDelete (project zone name : String)
  | gcpBucketCreate (name project region : String)
  | gcpBucketAttrs (name : String)
  | gcpBucketUpdate (name : String) (versioning : Bool)
  | gcpBucketDelete (name : String)
  -- Azure resource-manager calls (first argument is the resource group)
  | azRGCreateOrUpdate (rg location : String)
  | azSubnetGet (rg vnet subnet : String)
  | azVNetCreate (rg name location cidr : String)
  | azSubnetCreate (rg vnet subnet cidr : String)
  | azPIPCreate (rg name location : String)
  | azNICCreate (rg name subnetId pipId : String)
  | azVMCreate (rg name size nicId : String)
  | azVMGet (rg name : String)
  | azVMDelete (rg name : String)
  | azVNetGet (rg name : String)
  | gcpNetworkGet (project name : String)
  | azStorageAcctCreate (rg acct location : String)
  | azListKeys (rg acct : String)
  | azBlobContainerCreate (acct name : String)
  | azContainerGetProperties (acct name : String)
  | azBlobContainerDelete (acct name : String)
  | azStorageAcctDelete (rg acct : String)
  | azAKSCreate (rg name location nodeSize : String) (nodeCount : Int)
  -- Secrets (part_004)
  | createSecret (name : String)
  | setSecretAzure (vault name : String)
  | gcpSecretCreate (project name : String)
  | gcpSecretAddVersion (project name : String)
  | deleteSecret (name : String)
  | azBeginDeleteSecret (vault name : String)
  | gcpSecretDelete (project name : String)
  -- DNS records (part_007)
  | listHostedZonesByName (zone : String)
  | changeRRSUpsert (zoneId fqdn rtype : String) (ttl : Int) (value : String)
  | changeRRSDelete (zoneId fqdn rtype : String)
  | azDNSZoneCreate (rg zone : String)
  | azDNSRecordCreate (rg zone fqdn rtype : String)
  | azDNSRecordDelete (rg zone fqdn rtype : String)
  | gcpZoneGet (project zone : String)
  | gcpZoneCreate (project zone : String)
  | gcpChangeAdd (project zone fqdn : String)
  | gcpChangeDel (project zone fqdn : String)

/-- A flat injective encoding of `ACall`, used only to give the type a
decidable equality whose definition stays small. -/
def ACall.enc : ACall → Nat × List String × List Int × List Bool
  | .createVpc cidr => (0, [cidr], [], [])
  | .createTags resourceId name => (1, [resourceId, name], [], [])
  | .describeAvailabilityZones => (2, [], [], [])
  | .createSubnetAWS vpcId cidr zone => (3, [vpcId, cidr, zone], [], [])
  | .createInternetGateway => (4, [], [], [])
  | .attachInternetGateway vpcId gatewayId => (5, [vpcId, gatewayId], [], [])
  | .describeVpcs vpcId => (6, [vpcId], [], [])
  | .runInstances imageId instanceType publicIP => (7, [imageId, instanceType], [], [publicIP])
  | .describeInstances instanceId => (8, [instanceId], [], [])
  | .terminateInstances instanceId => (9, [instanceId], [], [])
  | .createBucket name region => (10, [name, region], [], [])
  | .putBucketVersioning name enabled => (11, [name], [], [enabled])
  | .headBucket name => (12, [name], [], [])
  | .deleteBucket name => (13, [name], [], [])
  | .gcpInstancesInsert project zone name machineType => (14, [project, zone, name, machineType], [], [])
  | .gcpInstancesGet project zone name => (15, [project, zone, name], [], [])
  | .gcpInstancesDelete project zone name => (16, [project, zone, name], [], [])
  | .gcpBucketCreate name project region => (17, [name, project, region], [], [])
  | .gcpBucketAttrs name => (18, [name], [], [])
  | .gcpBucketUpdate name versioning => (19, [name], [], [versioning])
  | .gcpBucketDelete name => (20, [name], [], [])
  | .azRGCreateOrUpdate rg location => (21, [rg, location], [], [])
  | .azSubnetGet rg vnet subnet => (22, [rg, vnet, subnet], [], [])
  | .azVNetCreate rg name location cidr => (23, [rg, name, location, cidr], [], [])
  | .azSubnetCreate rg vnet subnet cidr => (24, [rg, vnet, subnet, cidr], [], [])
  | .azPIPCreate rg name location => (25, [rg, name, location], [], [])
  | .azNICCreate rg name subnetId pipId => (26, [rg, name, subnetId, pipId], [], [])
  | .azVMCreate rg name size nicId => (27, [rg, name, size, nicId], [], [])
  | .azVMGet rg name => (28, [rg, name], [], [])
  | .azVMDelete rg name => (29, [rg, name], [], [])
  | .azVNetGet rg name => (30, [rg, name], [], [])
  | .gcpNetworkGet project name => (31, [project, name], [], [])
  | .azStorageAcctCreate rg acct location => (32, [rg, acct, location], [], [])
  | .azListKeys rg acct => (33, [rg, acct], [], [])
  | .azBlobContainerCreate acct name => (34, [acct, name], [], [])
  | .azContainerGetProperties acct name => (35, [acct, name], [], [])
  | .azBlobContainerDelete acct name => (36, [acct, name], [], [])
  | .azStorageAcctDelete rg acct => (37, [rg, acct], [], [])
  | .azAKSCreate rg name location nodeSize nodeCount => (38, [rg, name, location, nodeSize], [nodeCount], [])
  | .createSecret name => (39, [name], [], [])
  | .setSecretAzure vault name => (40, [vault, name], [], [])
  | .gcpSecretCreate project name => (41, [project, name], [], [])
  | .gcpSecretAddVersion project name => (42, [project, name], [], [])
  | .deleteSecret name => (43, [name], [], [])
  | .azBeginDeleteSecret vault name => (44, [vault, name], [], [])
  | .gcpSecretDelete project name => (45, [project, name], [], [])
  | .listHostedZonesByName zone => (46, [zone], [], [])
  | .changeRRSUpsert zoneId fqdn rtype ttl value => (47, [zoneId, fqdn, rtype, value], [ttl], [])
  | .changeRRSDelete zoneId fqdn rtype => (48, [zoneId, fqdn, rtype], [], [])
  | .azDNSZoneCreate rg zone => (49, [rg, zone], [], [])
  | .azDNSRecordCreate rg zone fqdn rtype => (50, [rg, zone, fqdn, rtype], [], [])
  | .azDNSRecordDelete rg zone fqdn rtype => (51, [rg, zone, fqdn, rtype], [], [])
  | .gcpZoneGet project zone => (52, [project, zone], [], [])
  | .gcpZoneCreate project zone => (53, [project, zone], [], [])
  | .gcpChangeAdd project zone fqdn => (54, [project, zone, fqdn], [], [])
  | .gcpChangeDel project zone fqdn => (55, [project, zone, fqdn], [], [])

/-- Partial inverse of `ACall.enc`. -/
def ACall.dec : Nat × List String × List Int × List Bool → Option ACall
  | (0, [cidr], [], []) => some (.createVpc cidr)
  | (1, [resourceId, name], [], []) => some (.createTags resourceId name)
  | (2, [], [], []) => some (.describeAvailabilityZones)
  | (3, [vpcId, cidr, zone], [], []) => some (.createSubnetAWS vpcId cidr zone)
  | (4, [], [], []) => some (.createInternetGateway)
  | (5, [vpcId, gatewayId], [], []) => some (.attachInternetGateway vpcId gatewayId)
  | (6, [vpcId], [], []) => some (.describeVpcs vpcId)
  | (7, [imageId, instanceType], [], [publicIP]) => some (.runInstances imageId instanceType publicIP)
  | (8, [instanceId], [], []) => some (.describeInstances instanceId)
  | (9, [instanceId], [], []) => some (.terminateInstances instanceId)
  | (10, [name, region], [], []) => some (.createBucket name region)
  | (11, [name], [], [enabled]) => some (.putBucketVersioning name enabled)
  | (12, [name], [], []) => some (.headBucket name)
  | (13, [name], [], []) => some (.deleteBucket name)
  | (14, [project, zone, name, machineType], [], []) => some (.gcpInstancesInsert project zone name machineType)
  | (15, [project, zone, name], [], []) => some (.gcpInstancesGet project zone name)
  | (16, [project, zone, name], [], []) => some (.gcpInstancesDelete project zone name)
  | (17, [name, project, region], [], []) => some (.gcpBucketCreate name project region)
  | (18, [name], [], []) => some (.gcpBucketAttrs name)
  | (19, [name], [], [versioning]) => some (.gcpBucketUpdate name versioning)
  | (20, [name], [], []) => some (.gcpBucketDelete name)
  | (21, [rg, location], [], []) => some (.azRGCreateOrUpdate rg location)
  | (22, [rg, vnet, subnet], [], []) => some (.azSubnetGet rg vnet subnet)
  | (23, [rg, name, location, cidr], [], []) => some (.azVNetCreate rg name location cidr)
  | (24, [rg, vnet, subnet, cidr], [], []) => some (.azSubnetCreate rg vnet subnet cidr)
  | (25, [rg, name, location], [], []) => some (.azPIPCreate rg name location)
  | (26, [rg, name, subnetId, pipId], [], []) => some (.azNICCreate rg name subnetId pipId)
  | (27, [rg, name, size, nicId], [], []) => some (.azVMCreate rg name size nicId)
  | (28, [rg, name], [], []) => some (.azVMGet rg name)
  | (29, [rg, name], [], []) => some (.azVMDelete rg name)
  | (30, [rg, name], [], []) => some (.azVNetGet rg name)
  | (31, [project, name], [], []) => some (.gcpNetworkGet project name)
  | (32, [rg, acct, location], [], []) => some (.azStorageAcctCreate rg acct location)
  | (33, [rg, acct], [], []) => some (.azListKeys rg acct)
  | (34, [acct, name], [], []) => some (.azBlobContainerCreate acct name)
  | (35, [acct, name], [], []) => some (.azContainerGetProperties acct name)
  | (36, [acct, name], [], []) => some (.azBlobContainerDelete acct name)
  | (37, [rg, acct], [], []) => some (.azStorageAcctDelete rg acct)
  | (38, [rg, name, location, nodeSize], [nodeCount], []) => some (.azAKSCreate rg name location nodeSize nodeCount)
  | (39, [name], [], []) => some (.createSecret name)
  | (40, [vault, name], [], []) => some (.setSecretAzure vault name)
  | (41, [project, name], [], []) => some (.gcpSecretCreate project name)
  | (42, [project, name], [], []) => some (.gcpSecretAddVersion project name)
  | (43, [name], [], []) => some (.deleteSecret name)
  | (44, [vault, name], [], []) => some (.azBeginDeleteSecret vault name)
  | (45, [project, name], [], []) => some (.gcpSecretDelete project name)
  | (46, [zone], [], []) => some (.listHostedZonesByName zone)
  | (47, [zoneId, fqdn, rtype, value], [ttl], []) => some (.changeRRSUpsert zoneId fqdn rtype ttl value)
  | (48, [zoneId, fqdn, rtype], [], []) => some (.changeRRSDelete zoneId fqdn rtype)
  | (49, [rg, zone], [], []) => some (.azDNSZoneCreate rg zone)
  | (50, [rg, zone, fqdn, rtype], [], []) => some (.azDNSRecordCreate rg zone fqdn rtype)
  | (51, [rg, zone, fqdn, rtype], [], []) => some (.azDNSRecordDelete rg zone fqdn rtype)
  | (52, [project, zone], [], []) => some (.gcpZoneGet project zone)
  | (53, [project, zone], [], []) => some (.gcpZoneCreate project zone)
  | (54, [project, zone, fqdn], [], []) => some (.gcpChangeAdd project zone fqdn)
  | (55, [project, zone, fqdn], [], []) => some (.gcpChangeDel project zone fqdn)
  | _ => none

theorem ACall.dec_enc : ∀ a : ACall, ACall.dec a.enc = some a := by
  intro a
  cases a <;> rfl

theorem ACall.enc_injective {a b : ACall} (h : a.enc = b.enc) : a = b := by
  have ha := ACall.dec_enc a
  rw [h, ACall.dec_enc b] at ha
  exact (Option.some.inj ha).symm

instance : DecidableEq ACall := fun a b =>
  decidable_of_iff (a.enc = b.enc) ⟨ACall.enc_injective, fun h => congrArg ACall.enc h⟩

namespace ACall

/-- Calls that tear a resource down (the spec's `destroy`). -/
def isDestroy : ACall → Bool
  | terminateInstances _ => true
  | deleteBucket _ => true
  | gcpInstancesDelete .. => true
  | gcpBucketDelete _ => true
  | azVMDelete .. => true
  | azBlobContainerDelete .. => true
  | azStorageAcctDelete .. => true
  | deleteSecret _ => true
  | azBeginDeleteSecret .. => true
  | gcpSecretDelete .. => true
  | changeRRSDelete .. => true
  | azDNSRecordDelete .. => true
  | gcpChangeDel .. => true
  | _ => false

/-- Pure read-only lookups (the spec's `exists`/`get` existence checks). -/
def isExistenceCheck : ACall → Bool
  | describeAvailabilityZones => true
  | describeVpcs _ => true
  | describeInstances _ => true
  | headBucket _ => true
  | gcpInstancesGet .. => true
  | gcpBucketAttrs _ => true
  | azSubnetGet .. => true
  | azVMGet .. => true
  | azVNetGet .. => true
  | gcpNetworkGet .. => true
  | azListKeys .. => true
  | azContainerGetProperties .. => true
  | listHostedZonesByName _ => true
  | gcpZoneGet .. => true
  | _ => false

/-- Calls that provision a sub-resource (the spec's chain steps). -/
def isProvision : ACall → Bool
  | createVpc _ => true
  | createSubnetAWS .. => true
  | createInternetGateway => true
  | runInstances .. => true
  | createBucket .. => true
  | gcpInstancesInsert .. => true
  | gcpBucketCreate .. => true
  | azRGCreateOrUpdate .. => true
  | azVNetCreate .. => true
  | azSubnetCreate .. => true
  | azPIPCreate .. => true
  | azNICCreate .. => true
  | azVMCreate .. => true
  | azStorageAcctCreate .. => true
  | azBlobContainerCreate .. => true
  | azAKSCreate .. => true
  | createSecret _ => true
  | setSecretAzure .. => true
  | gcpSecretCreate .. => true
  | gcpSecretAddVersion .. => true
  | changeRRSUpsert .. => true
  | azDNSZoneCreate .. => true
  | azDNSRecordCreate .. => true
  | gcpZoneCreate .. => true
  | gcpChangeAdd .. => true
  | _ => false

/-- The resource group an Azure management call addresses, if any. -/
def azureResourceGroup : ACall → Option String
  | azRGCreateOrUpdate rg _ => some rg
  | azSubnetGet rg _ _ => some rg
  | azVNetCreate rg _ _ _ => some rg
  | azSubnetCreate rg _ _ _ => some rg
  | azPIPCreate rg _ _ => some rg
  | azNICCreate rg _ _ _ => some rg
  | azVMCreate rg _ _ _ => some rg
  | azVMGet rg _ => some rg
  | azVMDelete rg _ => some rg
  | azVNetGet rg _ => some rg
  | azStorageAcctCreate rg _ _ => some rg
  | azListKeys rg _ => some rg
  | azStorageAcctDelete rg _ => some rg
  | azAKSCreate rg _ _ _ _ => some rg
  | azDNSZoneCreate rg _ => some rg
  | azDNSRecordCreate rg _ _ _ => some rg
  | azDNSRecordDelete rg _ _ _ => some rg
  | _ => none

end ACall

/-- Outcome of a `Create` lifecycle call: diagnostics, the record written to
state (`none` when the call returned before `resp.State.Set`), the backend
calls made, and whether the Go code dereferenced a nil pointer (panicked). -/
structure CreateRes (σ : Type) where
  diags : List Diag
  state : Option σ
  calls : List ACall
  panicked : Bool
deriving DecidableEq

/-- Outcome of a `Read` lifecycle call.  `state = none` models
`resp.State.RemoveResource`; otherwise the stored record is untouched (the
source never modifies state in `Read`), so `state = some` of the input. -/
structure ReadRes (σ : Type) where
  diags : List Diag
  state : Option σ
  calls : List ACall
deriving DecidableEq

/-- Outcome of an `Update` or `Delete` lifecycle call. -/
structure OpRes where
  diags : List Diag
  calls : List ACall
deriving DecidableEq

/-! ## NetworkResource (network.go) -/

/-- The plan attributes read by `NetworkResource.Create`. -/
structure NetPlan where
  name : String
  cidr : String
  type : String
deriving DecidableEq, Repr

/-- The record written by `NetworkResource.Create` (aws branch). -/
structure NetState where
  id : String
  name : String
  cidr : String
  type : String
  subnet_id : String
  gateway_id : String
deriving DecidableEq, Repr

/-- Backend responses consumed by `NetworkResource.Create`, aws branch.
Each field is the result of the corresponding call site. -/
structure NetAWSEnv where
  hasClient : Bool
  createVpc : Except String String
  createTags : Except String Unit
  describeAZs : Except String (List String)
  createSubnet : Except String String
  createIgw : Except String String
  attachIgw : Except String Unit
deriving Repr

/-- `NetworkResource.Create`, aws branch (network.go 87-155), from the
`CreateVpc` call on.  `trace` carries the calls already made. -/
def networkCreateAWSFromZones (plan : NetPlan) (env : NetAWSEnv) (cidr vpcID : String)
    (trace : List ACall) : CreateRes NetState :=
  let trace := trace ++ [ACall.describeAvailabilityZones]
  match env.describeAZs with
  | .error _ => ⟨[⟨"aws zones", "unable to determine availability zone"⟩], none, trace, false⟩
  | .ok zones =>
    if zones.isEmpty then
      ⟨[⟨"aws zones", "unable to determine availability zone"⟩], none, trace, false⟩
    else
      let zone := zones.headD ""
      let trace := trace ++ [ACall.createSubnetAWS vpcID cidr zone]
      match env.createSubnet with
      | .error e => ⟨[⟨"aws create subnet", e⟩], none, trace, false⟩
      | .ok subnetID =>
        let trace := trace ++ [ACall.createInternetGateway]
        match env.createIgw with
        | .error e => ⟨[⟨"aws create igw", e⟩], none, trace, false⟩
        | .ok gatewayID =>
          let trace := trace ++ [ACall.attachInternetGateway vpcID gatewayID]
          match env.attachIgw with
          | .error e => ⟨[⟨"aws attach igw", e⟩], none, trace, false⟩
          | .ok _ =>
            ⟨[], some ⟨vpcID, plan.name, cidr, plan.type, subnetID, gatewayID⟩, trace, false⟩

/-- `NetworkResource.Create`, aws branch (network.go 87-155). -/
def networkCreateAWS (plan : NetPlan) (env : NetAWSEnv) : CreateRes NetState :=
  if !env.hasClient then ⟨[⟨"missing AWS client", ""⟩], none, [], false⟩ else
  let cidr := if plan.cidr = "" then "10.0.0.0/16" else plan.cidr
  match env.createVpc with
  | .error e => ⟨[⟨"aws create vpc", e⟩], none, [ACall.createVpc cidr], false⟩
  | .ok vpcID =>
    let trace := [ACall.createVpc cidr]
    if plan.name ≠ "" then
      let trace := trace ++ [ACall.createTags vpcID plan.name]
      match env.createTags with
      | .error e => ⟨[⟨"aws tag vpc", e⟩], none, trace, false⟩
      | .ok _ => networkCreateAWSFromZones plan env cidr vpcID trace
    else
      networkCreateAWSFromZones plan env cidr vpcID trace

/-- Backend responses consumed by `NetworkResource.Read`. -/
structure NetReadEnv where
  hasAWSClient : Bool
  hasAzureClient : Bool
  hasGCPClient : Bool
  gcpProject : String
  describeVpcs : Except String (List String)
  azVNetGet : Except String Unit
  gcpNetworkGet : Except String Unit
deriving Repr

/-- `NetworkResource.Read` (network.go 270-306); an unrecognized
`state.type` falls through the switch with no effect. -/
def networkRead (st : NetState) (env : NetReadEnv) : ReadRes NetState :=
  if st.type = "aws" then
    if !env.hasAWSClient then ⟨[], some st, []⟩ else
    let trace := [ACall.describeVpcs st.id]
    match env.describeVpcs with
    | .error _ => ⟨[], none, trace⟩
    | .ok vpcs => if vpcs.isEmpty then ⟨[], none, trace⟩ else ⟨[], some st, trace⟩
  else if st.type = "azure" then
    if !env.hasAzureClient then ⟨[], some st, []⟩ else
    match env.azVNetGet with
    | .error _ => ⟨[], none, [ACall.azVNetGet "abstract-rg" st.id]⟩
    | .ok _ => ⟨[], some st, [ACall.azVNetGet "abstract-rg" st.id]⟩
  else if st.type = "gcp" then
    if !env.hasGCPClient then ⟨[], some st, []⟩ else
    match env.gcpNetworkGet with
    | .error _ => ⟨[], none, [ACall.gcpNetworkGet env.gcpProject st.id]⟩
    | .ok _ => ⟨[], some st, [ACall.gcpNetworkGet env.gcpProject st.id]⟩
  else
    ⟨[], some st, []⟩

/-- `NetworkResource.Update` (network.go 308-309): empty body. -/
def networkUpdate : OpRes := ⟨[], []⟩

/-! ## InstanceResource (part_005, first document) -/

/-- The plan attributes read by `InstanceResource.Create`. -/
structure InstPlan where
  name : String
  type : String
  region : String
  image : String
  size : String
  public_ip : Bool
deriving DecidableEq, Repr

/-- The record written by `InstanceResource.Create`. -/
structure InstState where
  id : String
  name : String
  type : String
  region : String
  image : String
  size : String
  public_ip : Bool
deriving DecidableEq, Repr

/-- Backend responses for `InstanceResource.Create`, aws branch. -/
structure InstAWSEnv where
  hasClient : Bool
  runInstances : Except String (List String)
  createTags : Except String Unit
deriving Repr

/-- `InstanceResource.Create`, aws branch (part_005 98-161). -/
def instanceCreateAWS (plan : InstPlan) (env : InstAWSEnv) : CreateRes InstState :=
  if !env.hasClient then ⟨[⟨"missing AWS client", ""⟩], none, [], false⟩ else
  if plan.image = "" then ⟨[⟨"missing image", "ami id must be provided"⟩], none, [], false⟩ else
  let size := if plan.size = "" then "small" else plan.size
  let instanceType := awsSizeMap size
  let trace := [ACall.runInstances plan.image instanceType plan.public_ip]
  match env.runInstances with
  | .error e => ⟨[⟨"aws run instance", e⟩], none, trace, false⟩
  | .ok ids =>
    if ids.isEmpty then ⟨[⟨"aws run instance", "no instance returned"⟩], none, trace, false⟩
    else
      let id := ids.headD ""
      let done : CreateRes InstState :=
        ⟨[], some ⟨id, plan.name, plan.type, plan.region, plan.image, instanceType,
                   plan.public_ip⟩, trace ++ (if plan.name ≠ "" then
                     [ACall.createTags id plan.name] else []), false⟩
      if plan.name ≠ "" then
        match env.createTags with
        | .error e => ⟨[⟨"aws tag instance", e⟩], none,
                       trace ++ [ACall.createTags id plan.name], false⟩
        | .ok _ => done
      else done

/-- Backend responses for `InstanceResource.Create`, azure branch.
The pollers' results are the final `Except`; an `Option` payload models the
nullable `ID` field of the SDK response. -/
structure InstAzureEnv where
  hasClients : Bool
  azureLoc : String
  rgCreate : Except String Unit
  subnetGet : Except String (Option String)
  vnetCreate : Except String Unit
  subnetCreate : Except String (Option String)
  pipCreate : Except String (Option String)
  nicCreate : Except String (Option String)
  vmCreate : Except String (Option String)
deriving Repr

/-- `InstanceResource.Create`, azure branch, from the public-IP step on
(part_005 213-323). -/
def instanceCreateAzureFromPIP (plan : InstPlan) (env : InstAzureEnv)
    (loc subnetID : String) (trace : List ACall) : CreateRes InstState :=
  let trace := trace ++ [ACall.azPIPCreate "abstract-rg" (plan.name ++ "-pip") loc]
  match env.pipCreate with
  | .error e => ⟨[⟨"azure pip", e⟩], none, trace, false⟩
  | .ok optPipID =>
    let pipID := optPipID.getD ""
    let trace := trace ++ [ACall.azNICCreate "abstract-rg" (plan.name ++ "-nic") subnetID pipID]
    match env.nicCreate with
    | .error e => ⟨[⟨"azure nic", e⟩], none, trace, false⟩
    | .ok optNicID =>
      let nicID := optNicID.getD ""
      let size := if plan.size = "" then "small" else plan.size
      let vmSize := azureSizeMap size
      let trace := trace ++ [ACall.azVMCreate "abstract-rg" plan.name vmSize nicID]
      match env.vmCreate with
      | .error e => ⟨[⟨"azure vm", e⟩], none, trace, false⟩
      | .ok optVmID =>
        let vmID := optVmID.getD ""
        ⟨[], some ⟨vmID, plan.name, plan.type, loc, plan.image, vmSize, plan.public_ip⟩,
         trace, false⟩

/-- `InstanceResource.Create`, azure branch (part_005 162-323).  When the
subnet `Get` finds no ID and the subsequent creation also yields no ID, the
source dereferences the nil `subnetResp.ID` (part_005 212), modelled by
`panicked = true`. -/
def instanceCreateAzure (plan : InstPlan) (env : InstAzureEnv) : CreateRes InstState :=
  if !env.hasClients then ⟨[⟨"azure", "missing client"⟩], none, [], false⟩ else
  let loc := if env.azureLoc = "" ∧ plan.region ≠ "" then plan.region else env.azureLoc
  let trace := [ACall.azRGCreateOrUpdate "abstract-rg" loc]
  match env.rgCreate with
  | .error e => ⟨[⟨"azure rg", e⟩], none, trace, false⟩
  | .ok _ =>
    let trace := trace ++ [ACall.azSubnetGet "abstract-rg" "abstract-vnet" "default"]
    match env.subnetGet with
    | .ok (some subnetID) => instanceCreateAzureFromPIP plan env loc subnetID trace
    | _ =>
      -- err != nil || subnetResp.ID == nil: create vnet and subnet
      let trace := trace ++ [ACall.azVNetCreate "abstract-rg" "abstract-vnet" loc "10.0.0.0/16"]
      match env.vnetCreate with
      | .error e => ⟨[⟨"azure vnet", e⟩], none, trace, false⟩
      | .ok _ =>
        let trace := trace ++
          [ACall.azSubnetCreate "abstract-rg" "abstract-vnet" "default" "10.0.0.0/24"]
        match env.subnetCreate with
        | .error e => ⟨[⟨"azure subnet", e⟩], none, trace, false⟩
        | .ok (some subnetID) => instanceCreateAzureFromPIP plan env loc subnetID trace
        | .ok none => ⟨[], none, trace, true⟩

/-- Backend responses for `InstanceResource.Create`, gcp branch. -/
structure InstGCPEnv where
  hasClient : Bool
  gcpProject : String
  gcpRegion : String
  insertInstance : Except String Unit
deriving Repr

/-- `InstanceResource.Create`, gcp branch (part_005 324-386). -/
def instanceCreateGCP (plan : InstPlan) (env : InstGCPEnv) : CreateRes InstState :=
  if !env.hasClient then ⟨[⟨"gcp", "missing client"⟩], none, [], false⟩ else
  let zone := if plan.region ≠ "" then plan.region
              else if env.gcpRegion ≠ "" then env.gcpRegion else "us-central1-a"
  let size := if plan.size = "" then "small" else plan.size
  let machineType := gcpSizeMap size
  let image := if plan.image = "" then "projects/debian-cloud/global/images/family/debian-11"
               else plan.image
  let trace := [ACall.gcpInstancesInsert env.gcpProject zone plan.name machineType]
  match env.insertInstance with
  | .error e => ⟨[⟨"gcp create instance", e⟩], none, trace, false⟩
  | .ok _ => ⟨[], some ⟨plan.name, plan.name, plan.type, zone, image, machineType,
                        plan.public_ip⟩, trace, false⟩

/-- The three per-backend environments of `InstanceResource.Create`. -/
structure InstEnv where
  aws : InstAWSEnv
  azure : InstAzureEnv
  gcp : InstGCPEnv
deriving Repr

/-- `InstanceResource.Create` (part_005 83-390): dispatch on `plan.type`. -/
def instanceCreate (plan : InstPlan) (env : InstEnv) : CreateRes InstState :=
  if plan.type = "aws" then instanceCreateAWS plan env.aws
  else if plan.type = "azure" then instanceCreateAzure plan env.azure
  else if plan.type = "gcp" then instanceCreateGCP plan env.gcp
  else ⟨[⟨"unsupported cloud", "only aws and azure implemented"⟩], none, [], false⟩

/-- Backend responses for `InstanceResource.Read`. -/
structure InstReadEnv where
  hasAWSClient : Bool
  hasAzureClient : Bool
  hasGCPClient : Bool
  gcpProject : String
  gcpRegion : String
  describeInstances : Except String (List (List String))
  azVMGet : Except String Unit
  gcpInstGet : Except String Unit
deriving Repr

/-- `InstanceResource.Read` (part_005 392-436); an unrecognized
`state.type` falls through the switch with no effect. -/
def instanceRead (st : InstState) (env : InstReadEnv) : ReadRes InstState :=
  if st.type = "aws" then
    if !env.hasAWSClient then ⟨[], some st, []⟩ else
    let trace := [ACall.describeInstances st.id]
    match env.describeInstances with
    | .error _ => ⟨[], none, trace⟩
    | .ok reservations =>
      if reservations.isEmpty || (reservations.headD []).isEmpty then ⟨[], none, trace⟩
      else ⟨[], some st, trace⟩
  else if st.type = "azure" then
    if !env.hasAzureClient then ⟨[], some st, []⟩ else
    match env.azVMGet with
    | .error _ => ⟨[], none, [ACall.azVMGet "abstract-rg" st.id]⟩
    | .ok _ => ⟨[], some st, [ACall.azVMGet "abstract-rg" st.id]⟩
  else if st.type = "gcp" then
    if !env.hasGCPClient then ⟨[], some st, []⟩ else
    let zone := if st.region ≠ "" then st.region
                else if env.gcpRegion ≠ "" then env.gcpRegion else "us-central1-a"
    match env.gcpInstGet with
    | .error _ => ⟨[], none, [ACall.gcpInstancesGet env.gcpProject zone st.id]⟩
    | .ok _ => ⟨[], some st, [ACall.gcpInstancesGet env.gcpProject zone st.id]⟩
  else ⟨[], some st, []⟩

/-- `InstanceResource.Update` (part_005 437-438): empty body. -/
def instanceUpdate : OpRes := ⟨[], []⟩

/-- Backend responses for `InstanceResource.Delete`. -/
structure InstDeleteEnv where
  hasAWSClient : Bool
  hasAzureClient : Bool
  hasGCPClient : Bool
  gcpProject : String
  gcpRegion : String
  terminate : Except String Unit
  azVMDelete : Except String Unit
  gcpDelete : Except String Unit
deriving Repr

/-- `InstanceResource.Delete` (part_005 439-486); an unrecognized
`state.type` falls through the switch with no effect. -/
def instanceDelete (st : InstState) (env : InstDeleteEnv) : OpRes :=
  if st.type = "aws" then
    if !env.hasAWSClient then ⟨[], []⟩ else
    match env.terminate with
    | .error e => ⟨[⟨"aws terminate", e⟩], [ACall.terminateInstances st.id]⟩
    | .ok _ => ⟨[], [ACall.terminateInstances st.id]⟩
  else if st.type = "azure" then
    if !env.hasAzureClient then ⟨[], []⟩ else
    match env.azVMDelete with
    | .error e => ⟨[⟨"azure delete", e⟩], [ACall.azVMDelete "abstract-rg" st.id]⟩
    | .ok _ => ⟨[], [ACall.azVMDelete "abstract-rg" st.id]⟩
  else if st.type = "gcp" then
    if !env.hasGCPClient then ⟨[], []⟩ else
    let zone := if st.region ≠ "" then st.region
                else if env.gcpRegion ≠ "" then env.gcpRegion else "us-central1-a"
    match env.gcpDelete with
    | .error e => ⟨[⟨"gcp delete", e⟩], [ACall.gcpInstancesDelete env.gcpProject zone st.id]⟩
    | .ok _ => ⟨[], [ACall.gcpInstancesDelete env.gcpProject zone st.id]⟩
  else ⟨[], []⟩

/-! ## BucketResource (bucket.go, first document) -/

/-- The plan attributes read by `BucketResource.Create`/`Update`. -/
structure BucketPlan where
  name : String
  type : String
  region : String
  versioning : Bool
deriving DecidableEq, Repr

/-- The record written by `BucketResource.Create`.  `account` and
`resource_group` are set by the azure branch, `project` by the gcp branch;
the other branches leave them empty. -/
structure BucketState where
  id : String
  name : String
  type : String
  region : String
  versioning : Bool
  account : String
  resource_group : String
  project : String
deriving DecidableEq, Repr

/-- Backend responses for `BucketResource.Create`, aws branch. -/
structure BucketAWSEnv where
  createBucket : Except String Unit
  putVersioning : Except String Unit
deriving Repr

/-- `BucketResource.Create`, aws branch (bucket.go 93-119). -/
def bucketCreateAWS (plan : BucketPlan) (env : BucketAWSEnv) : CreateRes BucketState :=
  let trace := [ACall.createBucket plan.name plan.region]
  match env.createBucket with
  | .error e => ⟨[⟨"aws create", e⟩], none, trace, false⟩
  | .ok _ =>
    let st : BucketState :=
      ⟨plan.name, plan.name, plan.type, plan.region, plan.versioning, "", "", ""⟩
    if plan.versioning then
      let trace := trace ++ [ACall.putBucketVersioning plan.name true]
      match env.putVersioning with
      | .error e => ⟨[⟨"aws versioning", e⟩], none, trace, false⟩
      | .ok _ => ⟨[], some st, trace, false⟩
    else ⟨[], some st, trace, false⟩

/-- Backend responses for `BucketResource.Create`, azure branch.
`sharedKeyCred` and `svcClient` model the local `azblob` constructors,
which can fail but make no backend call. -/
structure BucketAzureEnv where
  hasClients : Bool
  azureLoc : String
  rgCreate : Except String Unit
  acctCreate : Except String Unit
  listKeys : Except String (List String)
  sharedKeyCred : Except String Unit
  svcClient : Except String Unit
  createContainer : Except String Unit
deriving Repr

/-- `BucketResource.Create`, azure branch (bucket.go 120-180). -/
def bucketCreateAzure (plan : BucketPlan) (env : BucketAzureEnv) : CreateRes BucketState :=
  if !env.hasClients then ⟨[⟨"azure", "missing client"⟩], none, [], false⟩ else
  let loc := if env.azureLoc = "" ∧ plan.region ≠ "" then plan.region else env.azureLoc
  let trace := [ACall.azRGCreateOrUpdate "abstract-rg" loc]
  match env.rgCreate with
  | .error e => ⟨[⟨"azure rg", e⟩], none, trace, false⟩
  | .ok _ =>
    let acctName := storageAcctName plan.name
    let trace := trace ++ [ACall.azStorageAcctCreate "abstract-rg" acctName loc]
    match env.acctCreate with
    | .error e => ⟨[⟨"azure create account", e⟩], none, trace, false⟩
    | .ok _ =>
      let trace := trace ++ [ACall.azListKeys "abstract-rg" acctName]
      match env.listKeys with
      | .error _ => ⟨[⟨"azure keys", "unable to get account key"⟩], none, trace, false⟩
      | .ok keys =>
        if keys.isEmpty then
          ⟨[⟨"azure keys", "unable to get account key"⟩], none, trace, false⟩
        else match env.sharedKeyCred with
        | .error e => ⟨[⟨"azure cred", e⟩], none, trace, false⟩
        | .ok _ =>
          match env.svcClient with
          | .error e => ⟨[⟨"azure svc", e⟩], none, trace, false⟩
          | .ok _ =>
            let trace := trace ++ [ACall.azBlobContainerCreate acctName plan.name]
            match env.createContainer with
            | .error e => ⟨[⟨"azure container", e⟩], none, trace, false⟩
            | .ok _ => ⟨[], some ⟨plan.name, plan.name, plan.type, loc, plan.versioning,
                                  acctName, "abstract-rg", ""⟩, trace, false⟩

/-- Backend responses for `BucketResource.Create`, gcp branch. -/
structure BucketGCPEnv where
  hasClient : Bool
  gcpProject : String
  gcpRegion : String
  createBucket : Except String Unit
deriving Repr

/-- `BucketResource.Create`, gcp branch (bucket.go 181-206). -/
def bucketCreateGCP (plan : BucketPlan) (env : BucketGCPEnv) : CreateRes BucketState :=
  if !env.hasClient then ⟨[⟨"gcp", "missing client"⟩], none, [], false⟩ else
  let region := if plan.region ≠ "" then plan.region else env.gcpRegion
  let trace := [ACall.gcpBucketCreate plan.name env.gcpProject region]
  match env.createBucket with
  | .error e => ⟨[⟨"gcp create", e⟩], none, trace, false⟩
  | .ok _ => ⟨[], some ⟨plan.name, plan.name, plan.type, region, plan.versioning,
                        "", "", env.gcpProject⟩, trace, false⟩

/-- The three per-backend environments of `BucketResource.Create`. -/
structure BucketEnv where
  aws : BucketAWSEnv
  azure : BucketAzureEnv
  gcp : BucketGCPEnv
deriving Repr

/-- `BucketResource.Create` (bucket.go 78-210): dispatch on `plan.type`. -/
def bucketCreate (plan : BucketPlan) (env : BucketEnv) : CreateRes BucketState :=
  if plan.type = "aws" then bucketCreateAWS plan env.aws
  else if plan.type = "azure" then bucketCreateAzure plan env.azure
  else if plan.type = "gcp" then bucketCreateGCP plan env.gcp
  else ⟨[⟨"unsupported cloud", "only aws implemented"⟩], none, [], false⟩

/-- Backend responses for `BucketResource.Read`. -/
structure BucketReadEnv where
  hasAzureClients : Bool
  hasGCPClient : Bool
  headBucket : Except String Unit
  listKeys : Except String (List String)
  sharedKeyCred : Except String Unit
  svcClient : Except String Unit
  getProperties : Except String Unit
  gcpAttrs : Except String Unit
deriving Repr

/-- `BucketResource.Read` (bucket.go 212-271).  Note bucket.go 229-230:
the aws branch calls `AddError("aws read", ...)` *and* removes the record
when `HeadBucket` fails; the azure and gcp branches do the same on their
lookup failures. -/
def bucketRead (st : BucketState) (env : BucketReadEnv) : ReadRes BucketState :=
  if st.type = "aws" then
    let trace := [ACall.headBucket st.id]
    match env.headBucket with
    | .error e => ⟨[⟨"aws read", e⟩], none, trace⟩
    | .ok _ => ⟨[], some st, trace⟩
  else if st.type = "azure" then
    if !env.hasAzureClients then ⟨[⟨"azure", "missing client"⟩], some st, []⟩ else
    let trace := [ACall.azListKeys st.resource_group st.account]
    match env.listKeys with
    | .error _ => ⟨[⟨"azure keys", "unable to get account key"⟩], none, trace⟩
    | .ok keys =>
      if keys.isEmpty then ⟨[⟨"azure keys", "unable to get account key"⟩], none, trace⟩
      else match env.sharedKeyCred with
      | .error e => ⟨[⟨"azure cred", e⟩], some st, trace⟩
      | .ok _ =>
        match env.svcClient with
        | .error e => ⟨[⟨"azure svc", e⟩], some st, trace⟩
        | .ok _ =>
          let trace := trace ++ [ACall.azContainerGetProperties st.account st.id]
          match env.getProperties with
          | .error e => ⟨[⟨"azure read", e⟩], none, trace⟩
          | .ok _ => ⟨[], some st, trace⟩
  else if st.type = "gcp" then
    if !env.hasGCPClient then ⟨[⟨"gcp", "missing client"⟩], some st, []⟩ else
    let trace := [ACall.gcpBucketAttrs st.id]
    match env.gcpAttrs with
    | .error e => ⟨[⟨"gcp read", e⟩], none, trace⟩
    | .ok _ => ⟨[], some st, trace⟩
  else ⟨[], some st, []⟩

/-- Backend responses for `BucketResource.Update`. -/
structure BucketUpdateEnv where
  hasGCPClient : Bool
  putVersioning : Except String Unit
  gcpUpdate : Except String Unit
deriving Repr

/-- `BucketResource.Update` (bucket.go 273-311): aws sets the bucket's
versioning status in place, gcp updates the bucket attrs in place; azure
and unrecognized types have no case in the switch and do nothing. -/
def bucketUpdate (plan : BucketPlan) (env : BucketUpdateEnv) : OpRes :=
  if plan.type = "aws" then
    let trace := [ACall.putBucketVersioning plan.name plan.versioning]
    match env.putVersioning with
    | .error e => ⟨[⟨"aws update", e⟩], trace⟩
    | .ok _ => ⟨[], trace⟩
  else if plan.type = "gcp" then
    if !env.hasGCPClient then ⟨[⟨"gcp", "missing client"⟩], []⟩ else
    let trace := [ACall.gcpBucketUpdate plan.name plan.versioning]
    match env.gcpUpdate with
    | .error e => ⟨[⟨"gcp update", e⟩], trace⟩
    | .ok _ => ⟨[], trace⟩
  else ⟨[], []⟩

/-- Backend responses for `BucketResource.Delete`. -/
structure BucketDeleteEnv where
  hasAzureClients : Bool
  hasGCPClient : Bool
  deleteBucket : Except String Unit
  listKeys : Except String (List String)
  sharedKeyCred : Except String Unit
  svcClient : Except String Unit
  deleteContainer : Except String Unit
  deleteAccount : Except String Unit
  gcpDelete : Except String Unit
deriving Repr

/-- `BucketResource.Delete` (bucket.go 313-372). -/
def bucketDelete (st : BucketState) (env : BucketDeleteEnv) : OpRes :=
  if st.type = "aws" then
    let trace := [ACall.deleteBucket st.id]
    match env.deleteBucket with
    | .error e => ⟨[⟨"aws delete", e⟩], trace⟩
    | .ok _ => ⟨[], trace⟩
  else if st.type = "azure" then
    if !env.hasAzureClients then ⟨[⟨"azure", "missing client"⟩], []⟩ else
    let trace := [ACall.azListKeys st.resource_group st.account]
    match env.listKeys with
    | .error _ => ⟨[⟨"azure keys", "unable to get account key"⟩], trace⟩
    | .ok keys =>
      if keys.isEmpty then ⟨[⟨"azure keys", "unable to get account key"⟩], trace⟩
      else match env.sharedKeyCred with
      | .error e => ⟨[⟨"azure cred", e⟩], trace⟩
      | .ok _ =>
        match env.svcClient with
        | .error e => ⟨[⟨"azure svc", e⟩], trace⟩
        | .ok _ =>
          let trace := trace ++ [ACall.azBlobContainerDelete st.account st.id]
          let d1 : List Diag :=
            match env.deleteContainer with
            | .error e => [⟨"azure delete", e⟩]
            | .ok _ => []
          let trace := trace ++ [ACall.azStorageAcctDelete st.resource_group st.account]
          let d2 : List Diag :=
            match env.deleteAccount with
            | .error e => [⟨"azure delete account", e⟩]
            | .ok _ => []
          ⟨d1 ++ d2, trace⟩
  else if st.type = "gcp" then
    if !env.hasGCPClient then ⟨[⟨"gcp", "missing client"⟩], []⟩ else
    let trace := [ACall.gcpBucketDelete st.id]
    match env.gcpDelete with
    | .error e => ⟨[⟨"gcp delete", e⟩], trace⟩
    | .ok _ => ⟨[], trace⟩
  else ⟨[], []⟩

/-! ## ClusterResource, azure branch (cluster.go 163-215) -/

/-- The plan attributes read by `ClusterResource.Create`. -/
structure ClusterPlan where
  name : String
  type : String
  region : String
  node_count : Int
  node_size : String
deriving DecidableEq, Repr

/-- The record written by `ClusterResource.Create`, azure branch. -/
structure ClusterState where
  id : String
  name : String
  type : String
  region : String
  node_count : Int
  node_size : String
deriving DecidableEq, Repr

/-- Backend responses for `ClusterResource.Create`, azure branch. -/
structure ClusterAzureEnv where
  hasClients : Bool
  azureLoc : String
  rgCreate : Except String Unit
  aksCreate : Except String Unit
deriving Repr

/-- `ClusterResource.Create`, azure branch (cluster.go 163-215). -/
def clusterCreateAzure (plan : ClusterPlan) (env : ClusterAzureEnv) : CreateRes ClusterState :=
  if !env.hasClients then ⟨[⟨"azure", "missing client"⟩], none, [], false⟩ else
  let loc := if env.azureLoc = "" then
               (if plan.region = "" then "eastus" else plan.region)
             else env.azureLoc
  let trace := [ACall.azRGCreateOrUpdate "abstract-rg" loc]
  match env.rgCreate with
  | .error e => ⟨[⟨"azure rg", e⟩], none, trace, false⟩
  | .ok _ =>
    let nodeCount : Int := if plan.node_count > 0 then plan.node_count else 3
    let vmSize := if plan.node_size = "" then "Standard_DS2_v2" else plan.node_size
    let trace := trace ++ [ACall.azAKSCreate "abstract-rg" plan.name loc vmSize nodeCount]
    match env.aksCreate with
    | .error e => ⟨[⟨"azure create aks", e⟩], none, trace, false⟩
    | .ok _ => ⟨[], some ⟨plan.name, plan.name, plan.type, loc, nodeCount, vmSize⟩,
                trace, false⟩

/-! ## GCP operation polling loops (cluster.go 253-263, function.go 247-257) -/

/-- How a gcp polling loop exits: the `Operations.Get` call errored
(`AddError` then `return`), or the operation reached its terminal state
(`break`). -/
inductive PollStop where
  | failed (e : String)
  | done
deriving DecidableEq, Repr

/-- The polling loop of `ClusterResource.Create`, gcp branch
(cluster.go 253-263): repeatedly `Operations.Get`, break when
`oper.Status == "DONE"`, otherwise `time.Sleep(5 * time.Second)` and loop.
`statusAt n` is the result of the n-th `Operations.Get`; `fuel` bounds the
number of iterations: `none` means the loop has not exited within `fuel`
iterations.  On exit the second component is the total time slept, five
units per completed non-terminal iteration. -/
def gcpPollStatus (statusAt : Nat → Except String String) (i : Nat) :
    Nat → Option (PollStop × Nat)
  | 0 => none
  | fuel+1 =>
    match statusAt i with
    | .error e => some (.failed e, 0)
    | .ok s =>
      if s = "DONE" then some (.done, 0)
      else
        match gcpPollStatus statusAt (i+1) fuel with
        | none => none
        | some (r, slept) => some (r, slept + 5)

/-- The polling loop of `FunctionResource.Create`, gcp branch
(function.go 247-257): identical shape, terminal condition `oper.Done`. -/
def gcpPollDone (doneAt : Nat → Except String Bool) (i : Nat) :
    Nat → Option (PollStop × Nat)
  | 0 => none
  | fuel+1 =>
    match doneAt i with
    | .error e => some (.failed e, 0)
    | .ok d =>
      if d then some (.done, 0)
      else
        match gcpPollDone doneAt (i+1) fuel with
        | none => none
        | some (r, slept) => some (r, slept + 5)

/-- The loop never exits, whatever iteration bound is allowed. -/
def gcpPollStatusDiverges (statusAt : Nat → Except String String) : Prop :=
  ∀ i fuel, gcpPollStatus statusAt i fuel = none

/-! ## SecretResource (part_004) -/

/-- Models Go `strings.Contains(s, sub)` for the non-empty separators the
provider uses: `sub` occurs in `s` iff splitting on it yields more than one
part. -/
def goContains (s sub : String) : Bool := (s.splitOn sub).length != 1

/-- The plan attributes read by `SecretResource.Create`/`Update`. -/
structure SecretPlan where
  name : String
  type : String
  value : String
deriving DecidableEq, Repr

/-- The record written by `SecretResource.Create`. -/
structure SecretState where
  id : String
  name : String
  type : String
deriving DecidableEq, Repr

/-- Backend responses for `SecretResource.Create`.  `vaultURL` models the
`AZURE_KEY_VAULT_URL` environment variable; `newClient` the local
`azsecrets.NewClient` constructor (no backend call). -/
structure SecretCreateEnv where
  hasAWSClient : Bool
  hasAzureCred : Bool
  hasGCPClient : Bool
  vaultURL : String
  gcpProject : String
  createSecret : Except String String
  newClient : Except String Unit
  setSecret : Except String Unit
  gcpCreate : Except String Unit
  gcpAddVersion : Except String Unit
deriving Repr

/-- `SecretResource.Create`, gcp branch from `AddVersion` on
(part_004 128-138). -/
def secretCreateGCPAddVersion (plan : SecretPlan) (env : SecretCreateEnv)
    (trace : List ACall) : CreateRes SecretState :=
  let trace := trace ++ [ACall.gcpSecretAddVersion env.gcpProject plan.name]
  match env.gcpAddVersion with
  | .error e => ⟨[⟨"gcp version", e⟩], none, trace, false⟩
  | .ok _ => ⟨[], some ⟨"projects/" ++ env.gcpProject ++ "/secrets/" ++ plan.name,
                        plan.name, plan.type⟩, trace, false⟩

/-- `SecretResource.Create` (part_004 61-142). -/
def secretCreate (plan : SecretPlan) (env : SecretCreateEnv) : CreateRes SecretState :=
  if plan.type = "aws" then
    if !env.hasAWSClient then ⟨[⟨"aws", "missing client"⟩], none, [], false⟩ else
    let trace := [ACall.createSecret plan.name]
    match env.createSecret with
    | .error e => ⟨[⟨"aws create", e⟩], none, trace, false⟩
    | .ok arn => ⟨[], some ⟨arn, plan.name, plan.type⟩, trace, false⟩
  else if plan.type = "azure" then
    if !env.hasAzureCred then ⟨[⟨"azure", "missing credential"⟩], none, [], false⟩ else
    if env.vaultURL = "" then
      ⟨[⟨"azure", "AZURE_KEY_VAULT_URL not set"⟩], none, [], false⟩
    else match env.newClient with
    | .error e => ⟨[⟨"azure client", e⟩], none, [], false⟩
    | .ok _ =>
      let trace := [ACall.setSecretAzure env.vaultURL plan.name]
      match env.setSecret with
      | .error e => ⟨[⟨"azure set", e⟩], none, trace, false⟩
      | .ok _ => ⟨[], some ⟨env.vaultURL ++ "#" ++ plan.name, plan.name, plan.type⟩,
                  trace, false⟩
  else if plan.type = "gcp" then
    if !env.hasGCPClient then ⟨[⟨"gcp", "missing client"⟩], none, [], false⟩ else
    let trace := [ACall.gcpSecretCreate env.gcpProject plan.name]
    match env.gcpCreate with
    | .error e =>
      -- err != nil && !strings.Contains(err.Error(), "Already exists")
      if goContains e "Already exists" then secretCreateGCPAddVersion plan env trace
      else ⟨[⟨"gcp create", e⟩], none, trace, false⟩
    | .ok _ => secretCreateGCPAddVersion plan env trace
  else ⟨[⟨"unsupported cloud", ""⟩], none, [], false⟩

/-- Backend responses for `SecretResource.Delete`. -/
structure SecretDeleteEnv where
  hasAWSClient : Bool
  hasAzureCred : Bool
  hasGCPClient : Bool
  vaultURL : String
  gcpProject : String
  deleteSecret : Except String Unit
  newClient : Except String Unit
  beginDeleteSecret : Except String Unit
  gcpDelete : Except String Unit
deriving Repr

/-- `SecretResource.Delete` (part_004 217-261); an unrecognized
`state.type` falls through the switch with no effect. -/
def secretDelete (st : SecretState) (env : SecretDeleteEnv) : OpRes :=
  if st.type = "aws" then
    if !env.hasAWSClient then ⟨[], []⟩ else
    match env.deleteSecret with
    | .error e => ⟨[⟨"aws delete", e⟩], [ACall.deleteSecret st.name]⟩
    | .ok _ => ⟨[], [ACall.deleteSecret st.name]⟩
  else if st.type = "azure" then
    if !env.hasAzureCred then ⟨[], []⟩ else
    if env.vaultURL = "" then ⟨[], []⟩ else
    match env.newClient with
    | .error _ => ⟨[], []⟩
    | .ok _ =>
      match env.beginDeleteSecret with
      | .error e => ⟨[⟨"azure delete", e⟩],
                     [ACall.azBeginDeleteSecret env.vaultURL st.name]⟩
      | .ok _ => ⟨[], [ACall.azBeginDeleteSecret env.vaultURL st.name]⟩
  else if st.type = "gcp" then
    if !env.hasGCPClient then ⟨[], []⟩ else
    match env.gcpDelete with
    | .error e => ⟨[⟨"gcp delete", e⟩], [ACall.gcpSecretDelete env.gcpProject st.name]⟩
    | .ok _ => ⟨[], [ACall.gcpSecretDelete env.gcpProject st.name]⟩
  else ⟨[], []⟩

/-- The two environments `SecretResource.Update` delegates to. -/
structure SecretUpdateEnv where
  del : SecretDeleteEnv
  create : SecretCreateEnv
deriving Repr

/-- `SecretResource.Update` (part_004 193-215): run `Delete` on the stored
record, abort with its diagnostics if it errored, otherwise run `Create`
on the new plan and append its diagnostics. -/
def secretUpdate (st : SecretState) (plan : SecretPlan) (env : SecretUpdateEnv) : OpRes :=
  let d := secretDelete st env.del
  if d.diags ≠ [] then ⟨d.diags, d.calls⟩
  else
    let c := secretCreate plan env.create
    ⟨d.diags ++ c.diags, d.calls ++ c.calls⟩

/-! ## DNSRecordResource (part_007) -/

/-- Models Go `strings.ToUpper` on the ASCII strings the provider uses. -/
def goToUpper (s : String) : String := String.mk (s.data.map Char.toUpper)

/-- The fully-qualified record name (part_007 90-93, repeated in
Read/Delete): append `.zone.` unless the name already has that suffix.
`strings.HasSuffix` compares byte suffixes; on the ASCII names involved
this is the character-suffix test. -/
def dnsFqdn (name zone : String) : String :=
  if (zone ++ ".").data.isSuffixOf name.data then name
  else name ++ "." ++ zone ++ "."

/-- The effective ttl (part_007 86-89): 300 when the plan leaves it null. -/
def dnsTTL : Option Int → Int
  | none => 300
  | some t => t

/-- The plan attributes read by `DNSRecordResource.Create`/`Update`. -/
structure DNSPlan where
  name : String
  zone : String
  type : String
  value : String
  ttl : Option Int
deriving DecidableEq, Repr

/-- The record written by `DNSRecordResource.Create`; only the azure branch
sets `resource_group`. -/
structure DNSState where
  id : String
  name : String
  zone : String
  type : String
  value : String
  ttl : Int
  resource_group : String
deriving DecidableEq, Repr

/-- Backend responses for `DNSRecordResource.Create`. -/
structure DNSCreateEnv where
  hasAWSClient : Bool
  hasAzureClients : Bool
  hasGCPClient : Bool
  gcpProject : String
  listZones : Except String (List String)
  changeUpsert : Except String Unit
  azRGCreate : Except String Unit
  azZoneCreate : Except String Unit
  azRecordCreate : Except String Unit
  gcpZoneGet : Except String Unit
  gcpZoneCreate : Except String Unit
  gcpChangeCreate : Except String Unit
deriving Repr

/-- `DNSRecordResource.Create`, gcp branch from the change submission on
(part_007 186-200). -/
def dnsCreateGCPChange (plan : DNSPlan) (env : DNSCreateEnv) (ttl : Int)
    (fqdn : String) (trace : List ACall) : CreateRes DNSState :=
  let trace := trace ++ [ACall.gcpChangeAdd env.gcpProject plan.zone fqdn]
  match env.gcpChangeCreate with
  | .error e => ⟨[⟨"gcp record", e⟩], none, trace, false⟩
  | .ok _ => ⟨[], some ⟨plan.zone ++ "/" ++ fqdn, plan.name, plan.zone, plan.type,
                        plan.value, ttl, ""⟩, trace, false⟩

/-- `DNSRecordResource.Create` (part_007 73-202).  The `type` attribute is
both the backend tag (lower-cased for the switch) and the record type. -/
def dnsCreate (plan : DNSPlan) (env : DNSCreateEnv) : CreateRes DNSState :=
  let ttl := dnsTTL plan.ttl
  let fqdn := dnsFqdn plan.name plan.zone
  if goToLower plan.type = "aws" then
    if !env.hasAWSClient then ⟨[⟨"aws", "missing client"⟩], none, [], false⟩ else
    let trace := [ACall.listHostedZonesByName plan.zone]
    match env.listZones with
    | .error _ => ⟨[⟨"aws zone", "not found"⟩], none, trace, false⟩
    | .ok zones =>
      if zones.isEmpty then ⟨[⟨"aws zone", "not found"⟩], none, trace, false⟩
      else
        let zoneID := zones.headD ""
        let trace := trace ++ [ACall.changeRRSUpsert zoneID fqdn plan.type ttl plan.value]
        match env.changeUpsert with
        | .error e => ⟨[⟨"aws create", e⟩], none, trace, false⟩
        | .ok _ => ⟨[], some ⟨zoneID ++ "/" ++ fqdn, plan.name, plan.zone, plan.type,
                              plan.value, ttl, ""⟩, trace, false⟩
  else if goToLower plan.type = "azure" then
    if !env.hasAzureClients then ⟨[⟨"azure", "missing client"⟩], none, [], false⟩ else
    let trace := [ACall.azRGCreateOrUpdate "abstract-dns-rg" "global"]
    match env.azRGCreate with
    | .error e => ⟨[⟨"azure rg", e⟩], none, trace, false⟩
    | .ok _ =>
      let trace := trace ++ [ACall.azDNSZoneCreate "abstract-dns-rg" plan.zone]
      match env.azZoneCreate with
      | .error e => ⟨[⟨"azure zone", e⟩], none, trace, false⟩
      | .ok _ =>
        -- strings.EqualFold(type, "CNAME"): case-insensitive comparison
        let rtype := if goToLower plan.type = "cname" then "CNAME" else "A"
        let trace := trace ++
          [ACall.azDNSRecordCreate "abstract-dns-rg" plan.zone fqdn rtype]
        match env.azRecordCreate with
        | .error e => ⟨[⟨"azure record", e⟩], none, trace, false⟩
        | .ok _ => ⟨[], some ⟨plan.zone ++ "/" ++ fqdn, plan.name, plan.zone,
                              plan.type, plan.value, ttl, "abstract-dns-rg"⟩,
                    trace, false⟩
  else if goToLower plan.type = "gcp" then
    if !env.hasGCPClient then ⟨[⟨"gcp", "missing client"⟩], none, [], false⟩ else
    let trace := [ACall.gcpZoneGet env.gcpProject plan.zone]
    match env.gcpZoneGet with
    | .ok _ => dnsCreateGCPChange plan env ttl fqdn trace
    | .error _ =>
      let trace := trace ++ [ACall.gcpZoneCreate env.gcpProject plan.zone]
      match env.gcpZoneCreate with
      | .error e => ⟨[⟨"gcp zone", e⟩], none, trace, false⟩
      | .ok _ => dnsCreateGCPChange plan env ttl fqdn trace
  else ⟨[⟨"unsupported cloud", ""⟩], none, [], false⟩

/-- Backend responses for `DNSRecordResource.Delete`.  Only the zone lookup
result is inspected; the errors of the delete calls themselves are
discarded by the source (`_ = err`). -/
structure DNSDeleteEnv where
  hasAWSClient : Bool
  hasAzureClient : Bool
  hasGCPClient : Bool
  gcpProject : String
  listZones : Except String (List String)
deriving Repr

/-- `DNSRecordResource.Delete` (part_007 291-347): never reports an error;
a failed zone lookup silently returns, and the record deletions ignore
their errors.  An unrecognized `state.type` falls through the switch. -/
def dnsDelete (st : DNSState) (env : DNSDeleteEnv) : OpRes :=
  let fqdn := dnsFqdn st.name st.zone
  if goToLower st.type = "aws" then
    if !env.hasAWSClient then ⟨[], []⟩ else
    let trace := [ACall.listHostedZonesByName st.zone]
    match env.listZones with
    | .error _ => ⟨[], trace⟩
    | .ok zones =>
      if zones.isEmpty then ⟨[], trace⟩
      else ⟨[], trace ++ [ACall.changeRRSDelete (zones.headD "") fqdn (goToUpper st.type)]⟩
  else if goToLower st.type = "azure" then
    if !env.hasAzureClient then ⟨[], []⟩ else
    let rg := if st.resource_group = "" then "abstract-dns-rg" else st.resource_group
    ⟨[], [ACall.azDNSRecordDelete rg st.zone fqdn (goToUpper st.type)]⟩
  else if goToLower st.type = "gcp" then
    if !env.hasGCPClient then ⟨[], []⟩ else
    ⟨[], [ACall.gcpChangeDel env.gcpProject st.zone fqdn]⟩
  else ⟨[], []⟩

/-- The two environments `DNSRecordResource.Update` delegates to. -/
structure DNSUpdateEnv where
  del : DNSDeleteEnv
  create : DNSCreateEnv
deriving Repr

/-- `DNSRecordResource.Update` (part_007 265-291), "simplified: delete then
create": run `Delete` on the stored record, abort with its diagnostics if
it errored, otherwise run `Create` on the new plan and append its
diagnostics. -/
def dnsUpdate (st : DNSState) (plan : DNSPlan) (env : DNSUpdateEnv) : OpRes :=
  let d := dnsDelete st env.del
  if d.diags ≠ [] then ⟨d.diags, d.calls⟩
  else
    let c := dnsCreate plan env.create
    ⟨d.diags ++ c.diags, d.calls ++ c.calls⟩

/-- The sub-resource kind a provisioning call realizes, in the spec's
chain-step vocabulary. -/
def ACall.stepKind : ACall → String
  | .azRGCreateOrUpdate .. => "resource-group"
  | .azVNetCreate .. => "network"
  | .azSubnetCreate .. => "subnet"
  | .azPIPCreate .. => "address"
  | .azNICCreate .. => "interface"
  | .azVMCreate .. => "compute"
  | _ => "other"

/-- The size argument of each compute-primitive call in a trace. -/
def vmSizeArgs (calls : List ACall) : List String :=
  calls.filterMap fun c => match c with
    | .azVMCreate _ _ size _ => some size
    | _ => none

/-! ## Trace lemmas: Create never calls destroy -/

theorem networkCreateAWSFromZones_no_destroy (plan : NetPlan) (env : NetAWSEnv)
    (cidr vpcID : String) (trace : List ACall) :
    (networkCreateAWSFromZones plan env cidr vpcID trace).calls.filter ACall.isDestroy
      = trace.filter ACall.isDestroy := by
  unfold networkCreateAWSFromZones
  repeat' split
  all_goals simp [List.filter_append, ACall.isDestroy]

theorem networkCreateAWS_no_destroy (plan : NetPlan) (env : NetAWSEnv) :
    (networkCreateAWS plan env).calls.filter ACall.isDestroy = [] := by
  unfold networkCreateAWS
  repeat' split
  all_goals simp [List.filter_append, ACall.isDestroy, networkCreateAWSFromZones_no_destroy]

theorem instanceCreateAzureFromPIP_no_destroy (plan : InstPlan) (env : InstAzureEnv)
    (loc subnetID : String) (trace : List ACall) :
    (instanceCreateAzureFromPIP plan env loc subnetID trace).calls.filter ACall.isDestroy
      = trace.filter ACall.isDestroy := by
  unfold instanceCreateAzureFromPIP
  repeat' split
  all_goals simp [List.filter_append, ACall.isDestroy]

theorem instanceCreateAzure_no_destroy (plan : InstPlan) (env : InstAzureEnv) :
    (instanceCreateAzure plan env).calls.filter ACall.isDestroy = [] := by
  unfold instanceCreateAzure
  repeat' split
  all_goals
    simp [List.filter_append, ACall.isDestroy, instanceCreateAzureFromPIP_no_destroy]

theorem instanceCreateAWS_no_destroy (plan : InstPlan) (env : InstAWSEnv) :
    (instanceCreateAWS plan env).calls.filter ACall.isDestroy = [] := by
  unfold instanceCreateAWS
  repeat' split
  all_goals simp [List.filter_append, ACall.isDestroy]

theorem instanceCreateGCP_no_destroy (plan : InstPlan) (env : InstGCPEnv) :
    (instanceCreateGCP plan env).calls.filter ACall.isDestroy = [] := by
  unfold instanceCreateGCP
  repeat' split
  all_goals simp [List.filter_append, ACall.isDestroy]

theorem instanceCreate_no_destroy (plan : InstPlan) (env : InstEnv) :
    (instanceCreate plan env).calls.filter ACall.isDestroy = [] := by
  unfold instanceCreate
  repeat' split
  all_goals
    simp [instanceCreateAWS_no_destroy, instanceCreateAzure_no_destroy,
      instanceCreateGCP_no_destroy, ACall.isDestroy]

/-! ## C1: rollback on Create failure -/

/-- Concrete scenario for C1: a 2nd-step failure after the 1st step applied. -/
def c1NetPlan : NetPlan := ⟨"net1", "10.1.0.0/16", "aws"⟩

/-- Environment for C1: `CreateVpc` succeeds, `CreateSubnet` fails with a
transient error. -/
def c1NetEnv : NetAWSEnv :=
  ⟨true, .ok "vpc-123", .ok (), .ok ["us-east-1a"], .error "TransientFailure",
   .ok "igw-1", .ok ()⟩

/-- C1 counterexample: in `NetworkResource.Create` (aws), when the subnet
step fails after the VPC step was applied, the call reports failure but the
already-applied VPC receives no `destroy` call — the destroy sub-trace is
empty, not `[vpc]` as the claim requires. -/
theorem c1_counterexample :
    (networkCreateAWS c1NetPlan c1NetEnv).state = none ∧
    (networkCreateAWS c1NetPlan c1NetEnv).diags
      = [⟨"aws create subnet", "TransientFailure"⟩] ∧
    ACall.createVpc "10.1.0.0/16" ∈ (networkCreateAWS c1NetPlan c1NetEnv).calls ∧
    (networkCreateAWS c1NetPlan c1NetEnv).calls.filter ACall.isDestroy = [] := by
  refine ⟨?_, ?_, ?_, ?_⟩ <;> decide

/-- C1 (amended): when a Create chain step fails the call reports the
failing step's diagnostic, but no previously-applied step receives a
`destroy` call — a Create lifecycle call never issues any destroy call at
all, for any plan and any backend responses. -/
theorem c1_create_never_rolls_back (plan : NetPlan) (env : NetAWSEnv)
    (plan' : InstPlan) (env' : InstEnv) :
    (networkCreateAWS plan env).calls.filter ACall.isDestroy = [] ∧
    (instanceCreate plan' env').calls.filter ACall.isDestroy = [] :=
  ⟨networkCreateAWS_no_destroy plan env, instanceCreate_no_destroy plan' env'⟩

/-! ## C4: Update as Delete-then-Create -/

/-- Concrete scenario for C4: an aws bucket whose new spec enables
versioning. -/
def c4Plan : BucketPlan := ⟨"b1", "aws", "", true⟩

/-- Environment for C4: the versioning call succeeds. -/
def c4Env : BucketUpdateEnv := ⟨true, .ok (), .ok ()⟩

/-- C4 counterexample: `BucketResource.Update` on aws performs exactly one
in-place `PutBucketVersioning` mutation — no destroy call and no create
call — contradicting both halves of the claim (Delete-then-Create, never
in-place mutation). -/
theorem c4_counterexample :
    (bucketUpdate c4Plan c4Env).calls = [ACall.putBucketVersioning "b1" true] ∧
    (bucketUpdate c4Plan c4Env).calls.filter ACall.isDestroy = [] ∧
    (bucketUpdate c4Plan c4Env).calls.filter ACall.isProvision = [] := by
  refine ⟨?_, ?_, ?_⟩ <;> decide

/-- C4 (amended): an Update is realized as Delete-then-Create only by the
secret and DNS-record kinds, whose Update runs `Delete` on the stored
record and — unless that Delete reported an error — `Create` on the new
plan, concatenating the two call sequences in that order.  Every other
kind's Update performs no destroy and no provisioning call:
`InstanceResource.Update` and `NetworkResource.Update` have empty bodies,
and `BucketResource.Update` mutates versioning in place on aws/gcp. -/
theorem c4_update_realization (plan : BucketPlan) (env : BucketUpdateEnv)
    (st : SecretState) (plan' : SecretPlan) (env' : SecretUpdateEnv)
    (std : DNSState) (pland : DNSPlan) (envd : DNSUpdateEnv)
    (hsd : (secretDelete st env'.del).diags = [])
    (hdd : (dnsDelete std envd.del).diags = []) :
    instanceUpdate = ⟨[], []⟩ ∧ networkUpdate = ⟨[], []⟩ ∧
    (bucketUpdate plan env).calls.filter ACall.isDestroy = [] ∧
    (bucketUpdate plan env).calls.filter ACall.isProvision = [] ∧
    secretUpdate st plan' env'
      = ⟨(secretCreate plan' env'.create).diags,
         (secretDelete st env'.del).calls ++ (secretCreate plan' env'.create).calls⟩ ∧
    dnsUpdate std pland envd
      = ⟨(dnsCreate pland envd.create).diags,
         (dnsDelete std envd.del).calls ++ (dnsCreate pland envd.create).calls⟩ := by
  refine ⟨rfl, rfl, ?_, ?_, ?_, ?_⟩
  · unfold bucketUpdate
    repeat' split
    all_goals simp [ACall.isDestroy, ACall.isProvision]
  · unfold bucketUpdate
    repeat' split
    all_goals simp [ACall.isDestroy, ACall.isProvision]
  · unfold secretUpdate
    rw [if_neg (by simp [hsd]), hsd]
    simp
  · unfold dnsUpdate
    rw [if_neg (by simp [hdd]), hdd]
    simp

/-- Concrete secret-update scenario for the C4 witness. -/
def c4SecretState : SecretState := ⟨"arn:s1", "s1", "aws"⟩

/-- New plan for the C4 secret-update witness. -/
def c4SecretPlan : SecretPlan := ⟨"s1", "aws", "v2"⟩

/-- Environments for the C4 secret-update witness: delete and create both
succeed. -/
def c4SecretEnv : SecretUpdateEnv :=
  ⟨⟨true, true, true, "https://v", "p", .ok (), .ok (), .ok (), .ok ()⟩,
   ⟨true, true, true, "https://v", "p", .ok "arn:s1", .ok (), .ok (), .ok (), .ok ()⟩⟩

/-- Concrete DNS-update scenario for the C4 witness. -/
def c4DNSState : DNSState :=
  ⟨"Z1/www.example.com.", "www", "example.com", "aws", "1.2.3.4", 300, ""⟩

/-- New plan for the C4 DNS-update witness. -/
def c4DNSPlan : DNSPlan := ⟨"www", "example.com", "aws", "5.6.7.8", none⟩

/-- Environments for the C4 DNS-update witness. -/
def c4DNSEnv : DNSUpdateEnv :=
  ⟨⟨true, true, true, "p", .ok ["Z1"]⟩,
   ⟨true, true, true, "p", .ok ["Z1"], .ok (), .ok (), .ok (), .ok (), .ok (),
    .ok (), .ok ()⟩⟩

/-- C4 witness: a secret Update issues exactly the destroy of the stored
secret followed by the create from the new plan. -/
theorem c4_update_realization_witness :
    secretUpdate c4SecretState c4SecretPlan c4SecretEnv
      = ⟨[], [ACall.deleteSecret "s1", ACall.createSecret "s1"]⟩ := by
  have h := c4_update_realization c4Plan c4Env c4SecretState c4SecretPlan c4SecretEnv
    c4DNSState c4DNSPlan c4DNSEnv (by decide) (by decide)
  exact h.2.2.2.2.1.trans (by decide)

/-! ## C5: idempotent Delete on an absent target -/

/-- Concrete scenario for C5: an aws bucket record whose bucket was already
deleted on the backend, so `DeleteBucket` errors. -/
def c5State : BucketState := ⟨"b1", "b1", "aws", "", false, "", "", ""⟩

/-- Environment for C5: the delete call reports the target missing. -/
def c5Env : BucketDeleteEnv :=
  ⟨true, true, .error "NoSuchBucket", .ok [], .ok (), .ok (), .ok (), .ok (), .ok ()⟩

/-- C5 counterexample: Delete on a record whose terminal sub-resource is
absent performs a destroy adapter call (not merely existence checks — the
source contains no existence check at all) and surfaces the backend's
error as a failure diagnostic instead of returning success. -/
theorem c5_counterexample :
    (bucketDelete c5State c5Env).diags = [⟨"aws delete", "NoSuchBucket"⟩] ∧
    (bucketDelete c5State c5Env).calls = [ACall.deleteBucket "b1"] ∧
    (bucketDelete c5State c5Env).calls.filter (fun c => !c.isExistenceCheck) ≠ [] := by
  refine ⟨?_, ?_, ?_⟩ <;> decide

/-- C5 (amended): Delete performs its destroy call unconditionally, with no
existence check: on aws, `BucketResource.Delete` makes exactly the
`DeleteBucket` call and `InstanceResource.Delete` exactly the
`TerminateInstances` call, and when the backend reports an error (as it
does for an already-absent target) that error is surfaced as a diagnostic
rather than being treated as success. -/
theorem c5_delete_unconditional (st : BucketState) (env : BucketDeleteEnv)
    (st' : InstState) (env' : InstDeleteEnv) (e e' : String)
    (hb : st.type = "aws") (hi : st'.type = "aws")
    (hcl : env'.hasAWSClient = true)
    (herr : env.deleteBucket = .error e) (herr' : env'.terminate = .error e') :
    (bucketDelete st env).calls = [ACall.deleteBucket st.id] ∧
    (bucketDelete st env).diags = [⟨"aws delete", e⟩] ∧
    (instanceDelete st' env').calls = [ACall.terminateInstances st'.id] ∧
    (instanceDelete st' env').diags = [⟨"aws terminate", e'⟩] := by
  unfold bucketDelete instanceDelete
  rw [hb, hi, herr, herr', hcl]
  simp

/-- C5 witness. -/
theorem c5_delete_unconditional_witness :
    (bucketDelete c5State c5Env).calls = [ACall.deleteBucket "b1"] := by
  have h := c5_delete_unconditional c5State c5Env
    ⟨"i-1", "vm", "aws", "", "", "", false⟩
    ⟨true, true, true, "p", "r", .error "NotFound", .ok (), .ok ()⟩
    "NoSuchBucket" "NotFound" rfl rfl rfl rfl rfl
  exact h.1

/-! ## C6: normalization stability -/

/-- C6: each normalization pass of the provider is a fixed point on its own
output — the three size-class maps, lower-casing, 24-character truncation
and the storage-account name normalization are idempotent — and an input
matching no generic size class passes through every size map unchanged. -/
theorem c6_normalization_stable (s : String) :
    awsSizeMap (awsSizeMap s) = awsSizeMap s ∧
    azureSizeMap (azureSizeMap s) = azureSizeMap s ∧
    gcpSizeMap (gcpSizeMap s) = gcpSizeMap s ∧
    goToLower (goToLower s) = goToLower s ∧
    truncate24 (truncate24 s) = truncate24 s ∧
    storageAcctName (storageAcctName s) = storageAcctName s ∧
    (goToLower s ≠ "small" → goToLower s ≠ "medium" → goToLower s ≠ "large" →
      awsSizeMap s = s ∧ azureSizeMap s = s ∧ gcpSizeMap s = s) :=
  ⟨awsSizeMap_idem s, azureSizeMap_idem s, gcpSizeMap_idem s, goToLower_idem s,
   truncate24_idem s, storageAcctName_idem s,
   fun h1 h2 h3 => ⟨awsSizeMap_passthrough h1 h2 h3, azureSizeMap_passthrough h1 h2 h3,
     gcpSizeMap_passthrough h1 h2 h3⟩⟩

/-- C6 witness: a backend-native size identifier is already a fixed point
and passes through unchanged. -/
theorem c6_normalization_stable_witness :
    awsSizeMap (awsSizeMap "m5.xlarge") = awsSizeMap "m5.xlarge" ∧
    awsSizeMap "m5.xlarge" = "m5.xlarge" := by
  have h := c6_normalization_stable "m5.xlarge"
  exact ⟨h.1, (h.2.2.2.2.2.2 (by decide) (by decide) (by decide)).1⟩

/-! ## C2: Read on an out-of-band-deleted resource -/

/-- Concrete scenario for C2: an aws bucket record whose bucket was deleted
out-of-band, so `HeadBucket` errors. -/
def c2State : BucketState := ⟨"b1", "b1", "aws", "us-east-1", false, "", "", ""⟩

/-- Environment for C2: the `HeadBucket` existence check reports the bucket
gone. -/
def c2Env : BucketReadEnv :=
  ⟨true, true, .error "NotFound", .ok [], .ok (), .ok (), .ok (), .ok ()⟩

/-- C2 counterexample: `BucketResource.Read` (bucket.go 227-231) on a
record whose bucket was deleted out-of-band does discard the record, but it
also attaches an error diagnostic, contradicting the claim that no error
diagnostic is produced on any Read. -/
theorem c2_counterexample :
    (bucketRead c2State c2Env).state = none ∧
    (bucketRead c2State c2Env).diags ≠ [] := by
  refine ⟨?_, ?_⟩ <;> decide

/-- C2 (amended): a Read whose backend lookup finds the resource gone
always discards the record; `NetworkResource.Read` and
`InstanceResource.Read` produce no diagnostic while doing so, but
`BucketResource.Read` additionally surfaces the lookup error as a
diagnostic. -/
theorem c2_read_out_of_band_delete (stN : NetState) (envN : NetReadEnv)
    (stI : InstState) (envI : InstReadEnv) (stB : BucketState) (envB : BucketReadEnv)
    (e₁ e₂ e₃ : String)
    (h1 : stN.type = "aws") (h2 : envN.hasAWSClient = true)
    (h3 : envN.describeVpcs = .error e₁)
    (h4 : stI.type = "aws") (h5 : envI.hasAWSClient = true)
    (h6 : envI.describeInstances = .error e₂)
    (h7 : stB.type = "aws") (h8 : envB.headBucket = .error e₃) :
    (networkRead stN envN).state = none ∧ (networkRead stN envN).diags = [] ∧
    (instanceRead stI envI).state = none ∧ (instanceRead stI envI).diags = [] ∧
    (bucketRead stB envB).state = none ∧
    (bucketRead stB envB).diags = [⟨"aws read", e₃⟩] := by
  unfold networkRead instanceRead bucketRead
  rw [h1, h2, h3, h4, h5, h6, h7, h8]
  simp

/-- C2 witness. -/
theorem c2_read_out_of_band_delete_witness :
    (networkRead ⟨"vpc-1", "n", "10.0.0.0/16", "aws", "s", "g"⟩
      ⟨true, true, true, "p", .error "gone", .ok (), .ok ()⟩).state = none :=
  (c2_read_out_of_band_delete
    ⟨"vpc-1", "n", "10.0.0.0/16", "aws", "s", "g"⟩
    ⟨true, true, true, "p", .error "gone", .ok (), .ok ()⟩
    ⟨"i-1", "vm", "aws", "", "", "", false⟩
    ⟨true, true, true, "p", "r", .error "gone", .ok (), .ok ()⟩
    c2State c2Env "gone" "gone" "NotFound"
    rfl rfl rfl rfl rfl rfl rfl rfl).1

/-! ## C3: unsupported backend tag -/

/-- Concrete scenario for C3: a stored instance record with a backend tag
outside the supported enumeration. -/
def c3State : InstState := ⟨"i-1", "vm1", "digitalocean", "", "", "", false⟩

/-- Environment for C3: every client is configured and every backend call
would succeed. -/
def c3Env : InstReadEnv :=
  ⟨true, true, true, "proj", "us", .ok [["i-1"]], .ok (), .ok ()⟩

/-- C3 counterexample: a Read lifecycle call whose record carries the
unrecognized backend tag "digitalocean" surfaces no error at all (and makes
no backend call): the switch in `InstanceResource.Read` has no default
case, so the claim fails for non-Create lifecycle calls. -/
theorem c3_counterexample :
    (instanceRead c3State c3Env).diags = [] ∧
    (instanceRead c3State c3Env).calls = [] ∧
    (instanceRead c3State c3Env).state = some c3State := by
  refine ⟨?_, ?_, ?_⟩ <;> decide

/-- C3 (amended): a Create lifecycle call with an unrecognized backend tag
surfaces a fatal "unsupported cloud" diagnostic before any backend call is
made.  Read and Delete with an unrecognized tag make no backend call
either, but surface no error and leave the record untouched.  Update with
an unrecognized tag surfaces no error for the kinds whose Update is a
no-op or in-place, but the kinds that delegate Update to
Delete-then-Create (secret, DNS record) surface the delegated Create's
fatal "unsupported cloud" error, still with no backend call. -/
theorem c3_unsupported_backend (plan : BucketPlan) (envB : BucketEnv)
    (plan' : InstPlan) (envI : InstEnv) (st : InstState) (envR : InstReadEnv)
    (envD : InstDeleteEnv) (plan₂ : SecretPlan) (st₂ : SecretState)
    (envU : SecretUpdateEnv) (pland : DNSPlan) (std : DNSState) (envW : DNSUpdateEnv)
    (hb1 : plan.type ≠ "aws") (hb2 : plan.type ≠ "azure") (hb3 : plan.type ≠ "gcp")
    (hi1 : plan'.type ≠ "aws") (hi2 : plan'.type ≠ "azure") (hi3 : plan'.type ≠ "gcp")
    (hs1 : st.type ≠ "aws") (hs2 : st.type ≠ "azure") (hs3 : st.type ≠ "gcp")
    (hp1 : plan₂.type ≠ "aws") (hp2 : plan₂.type ≠ "azure") (hp3 : plan₂.type ≠ "gcp")
    (hq1 : st₂.type ≠ "aws") (hq2 : st₂.type ≠ "azure") (hq3 : st₂.type ≠ "gcp")
    (hr1 : goToLower pland.type ≠ "aws") (hr2 : goToLower pland.type ≠ "azure")
    (hr3 : goToLower pland.type ≠ "gcp")
    (hw1 : goToLower std.type ≠ "aws") (hw2 : goToLower std.type ≠ "azure")
    (hw3 : goToLower std.type ≠ "gcp") :
    bucketCreate plan envB
      = ⟨[⟨"unsupported cloud", "only aws implemented"⟩], none, [], false⟩ ∧
    instanceCreate plan' envI
      = ⟨[⟨"unsupported cloud", "only aws and azure implemented"⟩], none, [], false⟩ ∧
    instanceRead st envR = ⟨[], some st, []⟩ ∧
    instanceDelete st envD = ⟨[], []⟩ ∧
    secretCreate plan₂ envU.create
      = ⟨[⟨"unsupported cloud", ""⟩], none, [], false⟩ ∧
    secretUpdate st₂ plan₂ envU = ⟨[⟨"unsupported cloud", ""⟩], []⟩ ∧
    dnsUpdate std pland envW = ⟨[⟨"unsupported cloud", ""⟩], []⟩ := by
  unfold bucketCreate instanceCreate instanceRead instanceDelete secretUpdate
    secretDelete secretCreate dnsUpdate dnsDelete dnsCreate
  simp only [if_neg hb1, if_neg hb2, if_neg hb3, if_neg hi1, if_neg hi2, if_neg hi3,
    if_neg hs1, if_neg hs2, if_neg hs3, if_neg hp1, if_neg hp2, if_neg hp3,
    if_neg hq1, if_neg hq2, if_neg hq3, if_neg hr1, if_neg hr2, if_neg hr3,
    if_neg hw1, if_neg hw2, if_neg hw3]
  simp

/-- C3 witness. -/
theorem c3_unsupported_backend_witness :
    instanceRead c3State c3Env = ⟨[], some c3State, []⟩ :=
  (c3_unsupported_backend ⟨"b1", "digitalocean", "", false⟩
    ⟨⟨.ok (), .ok ()⟩, ⟨true, "", .ok (), .ok (), .ok ["k"], .ok (), .ok (), .ok ()⟩,
      ⟨true, "p", "r", .ok ()⟩⟩
    ⟨"vm1", "digitalocean", "", "", "", false⟩
    ⟨⟨true, .ok ["i-1"], .ok ()⟩, ⟨true, "", .ok (), .ok none, .ok (), .ok none,
      .ok none, .ok none, .ok none⟩, ⟨true, "p", "r", .ok ()⟩⟩
    c3State c3Env
    ⟨true, true, true, "p", "r", .ok (), .ok (), .ok ()⟩
    ⟨"s1", "digitalocean", "v"⟩ ⟨"id1", "s1", "digitalocean"⟩
    ⟨⟨true, true, true, "https://v", "p", .ok (), .ok (), .ok (), .ok ()⟩,
     ⟨true, true, true, "https://v", "p", .ok "arn", .ok (), .ok (), .ok (), .ok ()⟩⟩
    ⟨"www", "zone1", "digitalocean", "1.2.3.4", none⟩
    ⟨"zone1/www.zone1.", "www", "zone1", "digitalocean", "1.2.3.4", 300, ""⟩
    ⟨⟨true, true, true, "p", .ok ["Z1"]⟩,
     ⟨true, true, true, "p", .ok ["Z1"], .ok (), .ok (), .ok (), .ok (), .ok (),
      .ok (), .ok ()⟩⟩
    (by decide) (by decide) (by decide) (by decide) (by decide) (by decide)
    (by decide) (by decide) (by decide) (by decide) (by decide) (by decide)
    (by decide) (by decide) (by decide) (by decide) (by decide) (by decide)
    (by decide) (by decide) (by decide)).2.2.1

/-! ## C7: the azure compute chain -/

/-- C7: creating a compute instance on the azure backend with size "small"
when no network prerequisites exist (the subnet lookup fails) executes
exactly six provisioning steps, in the order resource-group, network,
subnet, address, interface, compute, and the compute step receives the
backend's smallest concrete size "Standard_B1s" (also recorded as the
resulting record's size). -/
theorem c7_azure_small_chain (plan : InstPlan) (env : InstAzureEnv)
    (g sid pid nid vid : String)
    (hc : env.hasClients = true)
    (hsize : plan.size = "small")
    (hrg : env.rgCreate = .ok ())
    (hget : env.subnetGet = .error g)
    (hv : env.vnetCreate = .ok ())
    (hs : env.subnetCreate = .ok (some sid))
    (hp : env.pipCreate = .ok (some pid))
    (hn : env.nicCreate = .ok (some nid))
    (hvm : env.vmCreate = .ok (some vid)) :
    ((instanceCreateAzure plan env).calls.filter ACall.isProvision).map ACall.stepKind
      = ["resource-group", "network", "subnet", "address", "interface", "compute"] ∧
    vmSizeArgs (instanceCreateAzure plan env).calls = ["Standard_B1s"] ∧
    ((instanceCreateAzure plan env).state.map fun st => st.size) = some "Standard_B1s" := by
  have hmap : azureSizeMap "small" = "Standard_B1s" := by decide
  unfold instanceCreateAzure instanceCreateAzureFromPIP
  rw [hc, hrg, hget, hv, hs, hp, hn, hvm, hsize]
  simp [ACall.isProvision, ACall.stepKind, vmSizeArgs, hmap, List.filter_append]

/-- Concrete plan for the C7 witness. -/
def c7Plan : InstPlan := ⟨"vm1", "azure", "eastus", "", "small", false⟩

/-- Concrete environment for the C7 witness: fresh backend, all steps
succeed. -/
def c7Env : InstAzureEnv :=
  ⟨true, "eastus", .ok (), .error "NotFound", .ok (), .ok (some "sid"),
   .ok (some "pid"), .ok (some "nid"), .ok (some "vm-id")⟩

/-- C7 witness. -/
theorem c7_azure_small_chain_witness :
    ((instanceCreateAzure c7Plan c7Env).calls.filter ACall.isProvision).map ACall.stepKind
      = ["resource-group", "network", "subnet", "address", "interface", "compute"] ∧
    vmSizeArgs (instanceCreateAzure c7Plan c7Env).calls = ["Standard_B1s"] ∧
    ((instanceCreateAzure c7Plan c7Env).state.map fun st => st.size)
      = some "Standard_B1s" :=
  c7_azure_small_chain c7Plan c7Env "NotFound" "sid" "pid" "nid" "vm-id"
    rfl rfl rfl rfl rfl rfl rfl rfl rfl

/-! ## C8: the polling loops -/

theorem gcpPollStatus_done (statusAt : Nat → Except String String) (k : Nat) :
    ∀ (i fuel : Nat),
    (∀ j, j < k → ∃ s, statusAt (i + j) = Except.ok s ∧ s ≠ "DONE") →
    statusAt (i + k) = Except.ok "DONE" → k < fuel →
    gcpPollStatus statusAt i fuel = some (PollStop.done, 5 * k) := by
  induction k with
  | zero =>
    intro i fuel _ hdone hfuel
    obtain ⟨f, rfl⟩ : ∃ f, fuel = f + 1 := ⟨fuel - 1, by omega⟩
    rw [Nat.add_zero] at hdone
    simp only [gcpPollStatus]
    rw [hdone]
    simp
  | succ n ih =>
    intro i fuel hpre hdone hfuel
    obtain ⟨f, rfl⟩ : ∃ f, fuel = f + 1 := ⟨fuel - 1, by omega⟩
    obtain ⟨s, hs, hsne⟩ := hpre 0 (by omega)
    rw [Nat.add_zero] at hs
    simp only [gcpPollStatus]
    rw [hs]
    dsimp only
    rw [if_neg hsne]
    have hstep := ih (i+1) f (fun j hj => by
        obtain ⟨t, ht, htne⟩ := hpre (j+1) (by omega)
        exact ⟨t, by rwa [show i + 1 + j = i + (j+1) by omega], htne⟩)
      (by rwa [show i + 1 + n = i + (n+1) by omega]) (by omega)
    rw [hstep]
    rw [Nat.mul_succ]

theorem gcpPollStatus_never_done (f : Nat → Except String String)
    (h : ∀ j, ∃ s, f j = Except.ok s ∧ s ≠ "DONE") : gcpPollStatusDiverges f := by
  intro i fuel
  induction fuel generalizing i with
  | zero => rfl
  | succ n ih =>
    obtain ⟨s, hs, hsne⟩ := h i
    simp only [gcpPollStatus]
    rw [hs]
    dsimp only
    rw [if_neg hsne, ih (i+1)]

/-- C8 counterexample: on an operation whose status never becomes terminal,
the polling loop of `ClusterResource.Create` (gcp branch) never exits —
there is no timeout and no `TimedOut` result, contradicting the claimed
hard per-step timeout. -/
theorem c8_counterexample : gcpPollStatusDiverges (fun _ => Except.ok "RUNNING") :=
  gcpPollStatus_never_done _ (fun _ => ⟨"RUNNING", rfl, by decide⟩)

/-- C8 (amended): the polling loop checks the operation status once per
iteration and sleeps a fixed 5 time-units between consecutive checks; it
exits exactly when the status reaches the terminal "DONE" value (or the
status call errors), after sleeping 5·k units when the k-th check is the
first terminal one.  There is no per-step timeout: an operation that never
converges is polled forever. -/
theorem c8_await_poll (statusAt : Nat → Except String String) (k fuel : Nat)
    (hpre : ∀ j, j < k → ∃ s, statusAt j = Except.ok s ∧ s ≠ "DONE")
    (hdone : statusAt k = Except.ok "DONE") (hfuel : k < fuel) :
    gcpPollStatus statusAt 0 fuel = some (PollStop.done, 5 * k) ∧
    (∀ g : Nat → Except String String,
      (∀ j, ∃ s, g j = Except.ok s ∧ s ≠ "DONE") → gcpPollStatusDiverges g) := by
  constructor
  · exact gcpPollStatus_done statusAt k 0 fuel
      (fun j hj => by simpa using hpre j hj) (by simpa using hdone) hfuel
  · exact gcpPollStatus_never_done

/-- Status sequence for the C8 witness: three pending checks, then done. -/
def c8Status : Nat → Except String String :=
  fun n => if n < 3 then .ok "PENDING" else .ok "DONE"

/-- C8 witness. -/
theorem c8_await_poll_witness :
    gcpPollStatus c8Status 0 4 = some (PollStop.done, 15) :=
  (c8_await_poll c8Status 3 4
    (fun j hj => ⟨"PENDING", by unfold c8Status; rw [if_pos hj], by decide⟩)
    rfl (by omega)).1

/-! ## C9: Create-then-Read round trip -/

theorem networkCreateAWS_state_type (plan : NetPlan) (env : NetAWSEnv) (st : NetState)
    (h : (networkCreateAWS plan env).state = some st) : st.type = plan.type := by
  unfold networkCreateAWS networkCreateAWSFromZones at h
  repeat' split at h
  all_goals (simp only [Option.some.injEq] at h; first | (subst h; rfl) | simp_all)

theorem instanceCreateAWS_state_type (plan : InstPlan) (env : InstAWSEnv) (st : InstState)
    (h : (instanceCreateAWS plan env).state = some st) : st.type = plan.type := by
  unfold instanceCreateAWS at h
  repeat' split at h
  all_goals (simp only [Option.some.injEq] at h; first | (subst h; rfl) | simp_all)

/-- C9: a record produced by a successful Create is returned unchanged by a
Read that finds the resource on the backend: the read produces no
diagnostics, keeps every attribute of the record, and performs only the
existence-check lookup. -/
theorem c9_create_read_roundtrip (plan : NetPlan) (env : NetAWSEnv) (renv : NetReadEnv)
    (st : NetState) (vpcs : List String)
    (plan' : InstPlan) (env' : InstAWSEnv) (renv' : InstReadEnv)
    (st' : InstState) (resv : List (List String))
    (hty : plan.type = "aws") (hcr : (networkCreateAWS plan env).state = some st)
    (hcl : renv.hasAWSClient = true) (hvp : renv.describeVpcs = .ok vpcs)
    (hne : vpcs ≠ [])
    (hty' : plan'.type = "aws") (hcr' : (instanceCreateAWS plan' env').state = some st')
    (hcl' : renv'.hasAWSClient = true) (hdi : renv'.describeInstances = .ok resv)
    (hne1 : resv ≠ []) (hne2 : resv.headD [] ≠ []) :
    networkRead st renv = ⟨[], some st, [ACall.describeVpcs st.id]⟩ ∧
    instanceRead st' renv' = ⟨[], some st', [ACall.describeInstances st'.id]⟩ := by
  have ht : st.type = "aws" := (networkCreateAWS_state_type plan env st hcr).trans hty
  have ht' : st'.type = "aws" :=
    (instanceCreateAWS_state_type plan' env' st' hcr').trans hty'
  unfold networkRead instanceRead
  rw [ht, ht', hcl, hcl', hvp, hdi]
  rw [List.headD_eq_head?_getD] at hne2
  simp [hne, hne1, hne2]

/-- Concrete plan for the C9 witness. -/
def c9Plan : NetPlan := ⟨"net1", "", "aws"⟩

/-- Concrete create environment for the C9 witness: every step succeeds. -/
def c9Env : NetAWSEnv :=
  ⟨true, .ok "vpc-1", .ok (), .ok ["us-east-1a"], .ok "sub-1", .ok "igw-1", .ok ()⟩

/-- Concrete read environment for the C9 witness: the vpc is found. -/
def c9ReadEnv : NetReadEnv :=
  ⟨true, true, true, "p", .ok ["vpc-1"], .ok (), .ok ()⟩

/-- C9 witness. -/
theorem c9_create_read_roundtrip_witness :
    networkRead ⟨"vpc-1", "net1", "10.0.0.0/16", "aws", "sub-1", "igw-1"⟩ c9ReadEnv
      = ⟨[], some ⟨"vpc-1", "net1", "10.0.0.0/16", "aws", "sub-1", "igw-1"⟩,
         [ACall.describeVpcs "vpc-1"]⟩ :=
  (c9_create_read_roundtrip c9Plan c9Env c9ReadEnv
    ⟨"vpc-1", "net1", "10.0.0.0/16", "aws", "sub-1", "igw-1"⟩ ["vpc-1"]
    ⟨"vm1", "aws", "", "ami-1", "", false⟩ ⟨true, .ok ["i-1"], .ok ()⟩
    ⟨true, true, true, "p", "r", .ok [["i-1"]], .ok (), .ok ()⟩
    ⟨"i-1", "vm1", "aws", "", "ami-1", "t3.small", false⟩ [["i-1"]]
    rfl (by decide) rfl rfl (by decide)
    rfl (by decide) rfl rfl (by decide) (by decide)).1

/-! ## C10: the hard-coded Azure resource group -/

/-- `true` on an Azure management call that addresses a resource group
other than "abstract-rg". -/
def strayRG (c : ACall) : Bool :=
  match c.azureResourceGroup with
  | some r => r != "abstract-rg"
  | none => false

theorem bucketCreateAzure_rg (plan : BucketPlan) (env : BucketAzureEnv) :
    (bucketCreateAzure plan env).calls.filter strayRG = [] := by
  unfold bucketCreateAzure
  repeat' split
  all_goals simp [List.filter_append, strayRG, ACall.azureResourceGroup]

theorem instanceCreateAzureFromPIP_rg (plan : InstPlan) (env : InstAzureEnv)
    (loc subnetID : String) (trace : List ACall) :
    (instanceCreateAzureFromPIP plan env loc subnetID trace).calls.filter strayRG
      = trace.filter strayRG := by
  unfold instanceCreateAzureFromPIP
  repeat' split
  all_goals simp [List.filter_append, strayRG, ACall.azureResourceGroup]

theorem instanceCreateAzure_rg (plan : InstPlan) (env : InstAzureEnv) :
    (instanceCreateAzure plan env).calls.filter strayRG = [] := by
  unfold instanceCreateAzure
  repeat' split
  all_goals
    simp [List.filter_append, strayRG, ACall.azureResourceGroup,
      instanceCreateAzureFromPIP_rg]

theorem clusterCreateAzure_rg (plan : ClusterPlan) (env : ClusterAzureEnv) :
    (clusterCreateAzure plan env).calls.filter strayRG = [] := by
  unfold clusterCreateAzure
  repeat' split
  all_goals simp [List.filter_append, strayRG, ACall.azureResourceGroup]

theorem bucketCreateAzure_state_rg (plan : BucketPlan) (env : BucketAzureEnv)
    (st : BucketState) (h : (bucketCreateAzure plan env).state = some st) :
    st.resource_group = "abstract-rg" := by
  unfold bucketCreateAzure at h
  repeat' split at h
  all_goals (simp only [Option.some.injEq] at h; first | (subst h; rfl) | simp_all)

theorem instanceReadAzure_rg (st : InstState) (env : InstReadEnv)
    (hty : st.type = "azure") (hc : env.hasAzureClient = true) :
    (instanceRead st env).calls = [ACall.azVMGet "abstract-rg" st.id] := by
  unfold instanceRead
  rw [hty, hc]
  repeat' split
  all_goals simp_all

/-- Concrete scenario for C10: an azure bucket record whose stored
`resource_group` attribute is not the hard-coded one. -/
def c10State : BucketState :=
  ⟨"b1", "b1", "azure", "eastus", false, "acct1", "custom-rg", ""⟩

/-- Environment for C10: every call succeeds. -/
def c10Env : BucketReadEnv :=
  ⟨true, true, .ok (), .ok ["key"], .ok (), .ok (), .ok (), .ok ()⟩

/-- C10 counterexample: `BucketResource.Read` on an azure record addresses
the resource group stored in the record, not the hard-coded "abstract-rg":
with `resource_group = "custom-rg"` the `ListKeys` lookup goes to
"custom-rg", so not every Azure-targeting operation looks up its resources
in "abstract-rg". -/
theorem c10_counterexample :
    ACall.azListKeys "custom-rg" "acct1" ∈ (bucketRead c10State c10Env).calls ∧
    (bucketRead c10State c10Env).calls.filter strayRG ≠ [] := by
  refine ⟨?_, ?_⟩ <;> decide

/-- C10 (amended): Azure-targeting Create operations (bucket, instance,
cluster) address only the hard-coded resource group "abstract-rg",
whatever the plan and backend responses; `InstanceResource.Read` on an
azure record addresses "abstract-rg"; and the record a bucket Create
writes stores `resource_group = "abstract-rg"`.  (Bucket and registry
Read/Delete, however, address the resource group stored in the record —
see the counterexample.) -/
theorem c10_azure_fixed_rg (pb : BucketPlan) (eb : BucketAzureEnv)
    (pi : InstPlan) (ei : InstAzureEnv) (pc : ClusterPlan) (ec : ClusterAzureEnv)
    (st : InstState) (er : InstReadEnv) (stb : BucketState)
    (hty : st.type = "azure") (hc : er.hasAzureClient = true)
    (hst : (bucketCreateAzure pb eb).state = some stb) :
    (bucketCreateAzure pb eb).calls.filter strayRG = [] ∧
    (instanceCreateAzure pi ei).calls.filter strayRG = [] ∧
    (clusterCreateAzure pc ec).calls.filter strayRG = [] ∧
    (instanceRead st er).calls = [ACall.azVMGet "abstract-rg" st.id] ∧
    stb.resource_group = "abstract-rg" :=
  ⟨bucketCreateAzure_rg pb eb, instanceCreateAzure_rg pi ei,
   clusterCreateAzure_rg pc ec, instanceReadAzure_rg st er hty hc,
   bucketCreateAzure_state_rg pb eb stb hst⟩

/-- C10 witness. -/
theorem c10_azure_fixed_rg_witness :
    (instanceRead ⟨"vm1", "vm1", "azure", "eastus", "", "Standard_B1s", false⟩
      ⟨true, true, true, "p", "r", .ok [["i"]], .ok (), .ok ()⟩).calls
      = [ACall.azVMGet "abstract-rg" "vm1"] :=
  (c10_azure_fixed_rg ⟨"b1", "azure", "eastus", false⟩
    ⟨true, "eastus", .ok (), .ok (), .ok ["k"], .ok (), .ok (), .ok ()⟩
    ⟨"vm1", "azure", "eastus", "", "small", false⟩
    ⟨true, "eastus", .ok (), .error "NotFound", .ok (), .ok (some "sid"),
     .ok (some "pid"), .ok (some "nid"), .ok (some "vm-id")⟩
    ⟨"c1", "azure", "", 0, ""⟩ ⟨true, "eastus", .ok (), .ok ()⟩
    ⟨"vm1", "vm1", "azure", "eastus", "", "Standard_B1s", false⟩
    ⟨true, true, true, "p", "r", .ok [["i"]], .ok (), .ok ()⟩
    ⟨"b1", "b1", "azure", "eastus", false, "b1", "abstract-rg", ""⟩
    rfl rfl (by decide)).2.2.2.1

end AbstractProvider
